import Mathlib

/-!
# ST7735 slider firmware: bus protocol, rectangle fill, sprite redraw, input mapping

A shallow embedding of `src/main.cpp`.  Every hardware call the program makes
(`uBit.io.P1.setDigitalValue`, `uBit.io.P16.setDigitalValue`, `screen_spi.write`,
`uBit.serial.printf`) is recorded, in program order, as one `BusEvent`; a C function
that returns `void` becomes a function returning the list of events it performs.

8-bit quantities are natural numbers; where the source converts an `int` to `uint8_t`
the embedding reduces modulo 256 explicitly.  The two pixel loops of
`screen_drawRectangle` count with `uint8_t` counters that wrap, so they are embedded
with a fuel argument and return `none` when the fuel runs out.
-/

namespace Slider

/-! ## Constants of the source -/

def SCREEN_HEIGHT : Nat := 162
def SCREEN_WIDTH : Nat := 130
def SCREEN_BACKGROUND : Nat := 0x0000

def CASET : Nat := 0x2A
def RASET : Nat := 0x2B
def RAMWR : Nat := 0x2C

def SWRESET : Nat := 0x01
def SLPOUT : Nat := 0x11
def NORON : Nat := 0x13
def INVOFF : Nat := 0x20
def DISPON : Nat := 0x29
def COLMOD : Nat := 0x3A
def MADCTL : Nat := 0x36
def FRMCTR1 : Nat := 0xB1
def FRMCTR2 : Nat := 0xB2
def INVCTR : Nat := 0xB4
def PWCTR1 : Nat := 0xC0
def PWCTR2 : Nat := 0xC1
def PWCTR3 : Nat := 0xC2
def PWCTR4 : Nat := 0xC3
def PWCTR5 : Nat := 0xC4
def VMCTR1 : Nat := 0xC5
def GMCTRP1 : Nat := 0xE0
def GMCTRN1 : Nat := 0xE1

def SPRITE_SLIDER_WIDTH : Nat := 24
def SPRITE_SLIDER_HEIGHT : Nat := 5
def SPRITE_SLIDER_COLOUR : Nat := 0xFFFF

/-! ## The recorded hardware calls -/

/-- One hardware call of the firmware.
* `dc v` is `uBit.io.P1.setDigitalValue(v)` (the command/data-select line RS/DC),
* `cs v` is `uBit.io.P16.setDigitalValue(v)` (the chip-select line CS),
* `write b` is `screen_spi.write(b)`,
* `serial v` is `uBit.serial.printf("%x\r\n", v)`, the debug console. -/
inductive BusEvent where
  | dc (level : Nat)
  | cs (level : Nat)
  | write (byte : Nat)
  | serial (value : Nat)
  deriving DecidableEq, Repr

open BusEvent

/-- The events that reach the display: everything except the debug console. -/
def onBus : BusEvent → Bool
  | serial _ => false
  | _ => true

/-- The display-bus part of a trace. -/
def busTrace (t : List BusEvent) : List BusEvent := t.filter onBus

/-- Is the event a byte written on the SPI bus? -/
def isWrite : BusEvent → Bool
  | write _ => true
  | _ => false

/-- Conversion of a C `int` to `uint8_t`. -/
def toU8 (i : Int) : Nat := (i % 256).toNat

/-! ## SPI API -/

/-- The source's `screen_send(paramCommand, paramBuffer)`; the `for` loop over the
indices of the buffer writes its bytes in index order. -/
def screen_send (paramCommand : Nat) (paramBuffer : List Nat) : List BusEvent :=
  [dc 0, cs 0, write paramCommand, serial paramCommand, dc 1]
    ++ paramBuffer.map write
    ++ [cs 1]

/-- The source's `screen_enterDataMode()`.  The last call passes the literal `11`. -/
def screen_enterDataMode : List BusEvent :=
  [dc 0, cs 0, write RAMWR, dc 11]

/-- The source's `screen_exitDataMode()`. -/
def screen_exitDataMode : List BusEvent :=
  [cs 1, dc 0]

/-- The source's `screen_setWindow(paramX0, paramY0, paramX1, paramY1)`. -/
def screen_setWindow (paramX0 paramY0 paramX1 paramY1 : Nat) : List BusEvent :=
  let bufX := [0, paramX0, 0, paramX1]
  let bufY := [0, paramY0, 0, paramY1]
  screen_send CASET bufX ++ screen_send RASET bufY

/-! ## Drawing -/

/-- The inner loop `for(uint8_t x = 0; x < paramWidth; x++)` of `screen_drawRectangle`,
started with the counter at `x`; the increment wraps at 256. -/
def drawRectangle_loopX : (fuel : Nat) → (x paramWidth colourHigh colourLow : Nat) →
    Option (List BusEvent)
  | 0, _, _, _, _ => none
  | fuel + 1, x, paramWidth, colourHigh, colourLow =>
    if x < paramWidth then
      (drawRectangle_loopX fuel ((x + 1) % 256) paramWidth colourHigh colourLow).map
        (fun t => write colourHigh :: write colourLow :: t)
    else some []

/-- The outer loop `for(uint8_t y = 0; y < paramHeight; y++)` of `screen_drawRectangle`,
started with the counter at `y`; each round runs the inner loop with `inner` fuel. -/
def drawRectangle_loopY (inner : Nat) : (fuel : Nat) →
    (y paramHeight paramWidth colourHigh colourLow : Nat) → Option (List BusEvent)
  | 0, _, _, _, _, _ => none
  | fuel + 1, y, paramHeight, paramWidth, colourHigh, colourLow =>
    if y < paramHeight then
      match drawRectangle_loopX inner 0 paramWidth colourHigh colourLow with
      | none => none
      | some row =>
        (drawRectangle_loopY inner fuel ((y + 1) % 256) paramHeight paramWidth
          colourHigh colourLow).map (fun t => row ++ t)
    else some []

/-- The source's `screen_drawRectangle`.  The sums in the two guards are `int` sums
(integer promotion), so they do not wrap; the corners passed to `screen_setWindow`
are converted to `uint8_t`. -/
def screen_drawRectangle (fuel : Nat)
    (paramX0 paramY0 paramWidth paramHeight paramColour : Nat) : Option (List BusEvent) :=
  if (paramX0 : Int) + paramWidth > SCREEN_WIDTH ∨ (paramY0 : Int) + paramHeight > SCREEN_HEIGHT then
    some []
  else if (paramX0 : Int) + paramWidth < 0 ∨ (paramY0 : Int) + paramHeight < 0 then
    some []
  else
    let colourHigh := (paramColour >>> 8) % 256
    let colourLow := paramColour &&& 0xFF
    match drawRectangle_loopY fuel fuel 0 paramHeight paramWidth colourHigh colourLow with
    | none => none
    | some pixels =>
      some (screen_setWindow paramX0 paramY0
              (toU8 ((paramX0 : Int) + paramWidth - 1)) (toU8 ((paramY0 : Int) + paramHeight - 1))
            ++ screen_enterDataMode ++ pixels ++ screen_exitDataMode)

/-- The source's `screen_setScreenColour`. -/
def screen_setScreenColour (fuel : Nat) (paramColour : Nat) : Option (List BusEvent) :=
  screen_drawRectangle fuel 0 0 SCREEN_WIDTH SCREEN_HEIGHT paramColour

/-- The version of `screen_drawRectangle` with its second guard, the test
`paramX0 + paramWidth < 0 || paramY0 + paramHeight < 0`, taken out. -/
def screen_drawRectangle_withoutSecondGuard (fuel : Nat)
    (paramX0 paramY0 paramWidth paramHeight paramColour : Nat) : Option (List BusEvent) :=
  if (paramX0 : Int) + paramWidth > SCREEN_WIDTH ∨ (paramY0 : Int) + paramHeight > SCREEN_HEIGHT then
    some []
  else
    let colourHigh := (paramColour >>> 8) % 256
    let colourLow := paramColour &&& 0xFF
    match drawRectangle_loopY fuel fuel 0 paramHeight paramWidth colourHigh colourLow with
    | none => none
    | some pixels =>
      some (screen_setWindow paramX0 paramY0
              (toU8 ((paramX0 : Int) + paramWidth - 1)) (toU8 ((paramY0 : Int) + paramHeight - 1))
            ++ screen_enterDataMode ++ pixels ++ screen_exitDataMode)

/-! ## Screen initialisation -/

/-- The settings `screen_initialise` gives the SPI peripheral before any bus traffic:
`screen_spi.frequency(4000000)` and `screen_spi.setMode(0)`. -/
structure SpiSetup where
  frequency : Nat
  mode : Nat
  deriving DecidableEq, Repr

/-- The source's `screen_initialise`: the SPI settings and the events performed. -/
def screen_initialise (fuel : Nat) : Option (SpiSetup × List BusEvent) :=
  let buf1 := [1]
  let buf2 := [1]
  let buf3 := [0x01, 0x2C, 0x2D]
  let buf4 := [0x01, 0x2C, 0x2D, 0x01, 0x2C, 0x2D]
  let buf5 := [0x07]
  let buf6 := [0xA2, 0x02, 0x84]
  let buf7 := [0x8A, 0x2A]
  let buf8 := [0x0A, 0x00]
  let buf9 := [0x8A, 0x2A]
  let buf10 := [0x8A, 0xEE]
  let buf11 := [0x0E]
  let buf12 := []
  let buf13 := [0xC8]
  let buf14 := [0x05]
  let buf15 := [0x00, 0x00, 0x00, 0x7F]
  let buf16 := [0x00, 0x00, 0x00, 0x9F]
  let buf17 := [0x02, 0x1C, 0x07, 0x12, 0x37, 0x32, 0x29, 0x2D,
                0x29, 0x25, 0x2B, 0x39, 0x00, 0x01, 0x03, 0x10]
  let buf18 := [0x03, 0x1D, 0x07, 0x06, 0x2E, 0x2C, 0x29, 0x2D,
                0x2E, 0x2E, 0x37, 0x3F, 0x00, 0x00, 0x02, 0x10]
  let buf19 := []
  let buf20 := []
  match screen_setScreenColour fuel SCREEN_BACKGROUND with
  | none => none
  | some fill =>
    some (⟨4000000, 0⟩,
      screen_send SWRESET buf1 ++ screen_send SLPOUT buf2 ++ screen_send FRMCTR1 buf3
        ++ screen_send FRMCTR2 buf4 ++ screen_send INVCTR buf5 ++ screen_send PWCTR1 buf6
        ++ screen_send PWCTR2 buf7 ++ screen_send PWCTR3 buf8 ++ screen_send PWCTR4 buf9
        ++ screen_send PWCTR5 buf10 ++ screen_send VMCTR1 buf11 ++ screen_send INVOFF buf12
        ++ screen_send MADCTL buf13 ++ screen_send COLMOD buf14 ++ screen_send CASET buf15
        ++ screen_send RASET buf16 ++ screen_send GMCTRP1 buf17 ++ screen_send GMCTRN1 buf18
        ++ screen_send NORON buf19 ++ screen_send DISPON buf20 ++ fill)

/-! ## Sprites -/

/-- The source's `struct SliderSprite`. -/
structure SliderSprite where
  position_x : Nat
  position_y : Nat
  last_position_x : Nat
  last_position_y : Nat
  drawn : Bool
  deriving DecidableEq, Repr

/-- The source's `redrawSlider`: the sprite afterwards and the events performed. -/
def redrawSlider (fuel : Nat) (s : SliderSprite) : Option (SliderSprite × List BusEvent) :=
  if s.drawn = true ∧ s.position_x = s.last_position_x ∧ s.position_y = s.last_position_y then
    some (s, [])
  else
    match (if s.drawn = true then
            screen_drawRectangle fuel s.last_position_x s.last_position_y
              SPRITE_SLIDER_WIDTH SPRITE_SLIDER_HEIGHT SCREEN_BACKGROUND
           else some []) with
    | none => none
    | some erase =>
      match screen_drawRectangle fuel s.position_x s.position_y
              SPRITE_SLIDER_WIDTH SPRITE_SLIDER_HEIGHT SPRITE_SLIDER_COLOUR with
      | none => none
      | some draw => some ({ s with drawn := true }, erase ++ draw)

/-- The source's `moveSlider`. -/
def moveSlider (fuel : Nat) (s : SliderSprite) (paramX paramY : Nat) :
    Option (SliderSprite × List BusEvent) :=
  redrawSlider fuel
    { s with last_position_x := s.position_x, last_position_y := s.position_y,
             position_x := paramX, position_y := paramY }

/-- The source's `createSliderSprite`.  `fresh` is the record as `malloc` hands it
over: its fields hold whatever the memory held. -/
def createSliderSprite (fuel : Nat) (fresh : SliderSprite) (paramX paramY : Nat) :
    Option (SliderSprite × List BusEvent) :=
  moveSlider fuel { fresh with position_x := paramX, position_y := paramY, drawn := false }
    paramX paramY

/-! ## Sprites, by the calls of `screen_drawRectangle`

The same three functions of the source, recording each call of `screen_drawRectangle`
they make by its arguments, in place of the events of the call. -/

/-- One call of `screen_drawRectangle`: its five arguments. -/
structure RectCall where
  x : Nat
  y : Nat
  width : Nat
  height : Nat
  colour : Nat
  deriving DecidableEq, Repr

/-- The source's `redrawSlider`: the sprite afterwards and the calls made. -/
def redrawSlider_calls (s : SliderSprite) : SliderSprite × List RectCall :=
  if s.drawn = true ∧ s.position_x = s.last_position_x ∧ s.position_y = s.last_position_y then
    (s, [])
  else
    ({ s with drawn := true },
      (if s.drawn = true then
        [⟨s.last_position_x, s.last_position_y,
          SPRITE_SLIDER_WIDTH, SPRITE_SLIDER_HEIGHT, SCREEN_BACKGROUND⟩]
       else [])
      ++ [⟨s.position_x, s.position_y,
            SPRITE_SLIDER_WIDTH, SPRITE_SLIDER_HEIGHT, SPRITE_SLIDER_COLOUR⟩])

/-- The source's `moveSlider`: the sprite afterwards and the calls made. -/
def moveSlider_calls (s : SliderSprite) (paramX paramY : Nat) : SliderSprite × List RectCall :=
  redrawSlider_calls
    { s with last_position_x := s.position_x, last_position_y := s.position_y,
             position_x := paramX, position_y := paramY }

/-- The source's `createSliderSprite`: the sprite returned and the calls made. -/
def createSliderSprite_calls (fresh : SliderSprite) (paramX paramY : Nat) :
    SliderSprite × List RectCall :=
  moveSlider_calls { fresh with position_x := paramX, position_y := paramY, drawn := false }
    paramX paramY

/-- The events of a list of calls of `screen_drawRectangle`, made one after the other. -/
def callsTrace (fuel : Nat) : List RectCall → Option (List BusEvent)
  | [] => some []
  | c :: rest =>
    match screen_drawRectangle fuel c.x c.y c.width c.height c.colour with
    | none => none
    | some t => (callsTrace fuel rest).map (fun r => t ++ r)

/-! ## Single-precision arithmetic

`mapValue` computes in `float`.  The values it can meet are non-negative, finite, below
`2^24` and far above the subnormal range, so a binary32 value is represented here by the
dyadic rational `sig / 2^scale`, and each operation is the exact rational operation
followed by rounding to a 24-bit significand, to nearest, ties to even (IEEE 754
`roundTiesToEven`, the default mode). -/

/-- A non-negative finite binary32 value, `sig / 2^scale`. -/
structure F32 where
  sig : Nat
  scale : Nat
  deriving DecidableEq, Repr

/-- The integer nearest to `n / d`, ties to the even one. -/
def roundNearestEven (n d : Nat) : Nat :=
  let q := n / d
  let r := n % d
  if 2 * r < d then q
  else if d < 2 * r then q + 1
  else if q % 2 = 0 then q else q + 1

/-- The least `k` at or after the given one with `2^23 ≤ (n / d) * 2^k`, searched for
`fuel` steps: the binary point's position that gives `n / d` a 24-bit significand. -/
def f32Scale : (fuel : Nat) → (n d k : Nat) → Nat
  | 0, _, _, k => k
  | fuel + 1, n, d, k => if 2 ^ 23 * d ≤ n * 2 ^ k then k else f32Scale fuel n d (k + 1)

/-- The binary32 value nearest to the rational `n / d`, for `0 ≤ n / d < 2^24` and
`n / d` not subnormal (the scale of a normal binary32 value is at most 149). -/
def f32Round (n d : Nat) : F32 :=
  if n = 0 then ⟨0, 0⟩
  else
    let k := f32Scale 149 n d 0
    ⟨roundNearestEven (n * 2 ^ k) d, k⟩

/-- Conversion of an integer below `2^24` to `float`: exact. -/
def f32OfNat (v : Nat) : F32 := ⟨v, 0⟩

/-- Subtraction in `float` of `b` from a value `a` that is not smaller. -/
def f32Sub (a b : F32) : F32 :=
  f32Round (a.sig * 2 ^ b.scale - b.sig * 2 ^ a.scale) (2 ^ (a.scale + b.scale))

/-- Division in `float`. -/
def f32Div (a b : F32) : F32 :=
  f32Round (a.sig * 2 ^ b.scale) (b.sig * 2 ^ a.scale)

/-- Multiplication in `float`. -/
def f32Mul (a b : F32) : F32 :=
  f32Round (a.sig * b.sig) (2 ^ (a.scale + b.scale))

/-- The C library's `round` on a non-negative value: to the nearest integer, halves
away from zero. -/
def cRound (a : F32) : Nat :=
  (2 * a.sig + 2 ^ a.scale) / (2 * 2 ^ a.scale)

/-! ## Game API -/

/-- The source's `mapValue()`, as a function of the sample `value` that
`readAnalogValue()` returned.  After the clamp `value` is at least 250, so the
subtraction `(float) value - 250` is of a smaller from a larger value.  The operands
`250`, `524` and `width_area` are converted to `float` exactly; `round` receives the
`float` product and its result is stored in a `uint8_t`. -/
def mapValue (raw : Nat) : Nat :=
  let value := if raw > 744 then 774 else if raw < 250 then 250 else raw
  let width_area := (SCREEN_WIDTH - SPRITE_SLIDER_WIDTH) % 256
  let interpolatedValue :=
    cRound (f32Mul (f32Div (f32Sub (f32OfNat value) (f32OfNat 250)) (f32OfNat 524))
                   (f32OfNat width_area)) % 256
  interpolatedValue

/-! ## Main -/

/-- The rounds of the `while (true)` loop of `main`, one for each sample that
`readAnalogValue()` returns: the sprite after each round and the events of the round.
`uBit.sleep(50)` performs none of the recorded calls. -/
def main_loop (fuel : Nat) : SliderSprite → List Nat →
    Option (List (SliderSprite × List BusEvent))
  | _, [] => some []
  | sprite, raw :: rest =>
    match moveSlider fuel sprite (mapValue raw) 20 with
    | none => none
    | some step => (main_loop fuel step.1 rest).map (fun l => step :: l)

/-- The source's `main`, run on the samples that `readAnalogValue()` returns one after
the other: `microbit_initialise` (whose `uBit.init()` performs none of the recorded
calls, then `screen_initialise`), `createSliderSprite` for the first sample, one round
of the loop for each further sample.  The result of the initialisation, then the
sprite and the events of each step. -/
def main (fuel : Nat) (fresh : SliderSprite) (samples : List Nat) :
    Option ((SpiSetup × List BusEvent) × List (SliderSprite × List BusEvent)) :=
  match screen_initialise fuel with
  | none => none
  | some init =>
    match samples with
    | [] => some (init, [])
    | raw :: rest =>
      match createSliderSprite fuel fresh (mapValue raw) 20 with
      | none => none
      | some step => (main_loop fuel step.1 rest).map (fun l => (init, step :: l))

/-! ## Vocabulary of the specification -/

/-- One bus transaction as the specification describes it: chip-select asserted, the
opcode with command/data-select low, the payload with command/data-select high,
chip-select deasserted. -/
def transaction (opcode : Nat) (payload : List Nat) : List BusEvent :=
  [dc 0, cs 0, write opcode, dc 1] ++ payload.map write ++ [cs 1]

/-- The window `(x0, y0, x1, y1)` set on the bus: a column-address-set and a
row-address-set transaction. -/
def windowSet (x0 y0 x1 y1 : Nat) : List BusEvent :=
  transaction CASET [0, x0, 0, x1] ++ transaction RASET [0, y0, 0, y1]

/-- A stream of `n` pixels of one colour, each the high byte then the low byte. -/
def pixelStream (n colour : Nat) : List BusEvent :=
  (List.replicate n [write (colour >>> 8), write (colour &&& 0xFF)]).flatten

/-- The bus trace of one rectangle fill of size `w × h` at `(x, y)`: the window set to
the inclusive corners, the memory-write opcode, `w * h` pixels, the end of the stream.
`dataLevel` is the level written to the command/data-select line before the pixels. -/
def rectFill (dataLevel x y w h colour : Nat) : List BusEvent :=
  windowSet x y (x + w - 1) (y + h - 1)
    ++ [dc 0, cs 0, write RAMWR, dc dataLevel]
    ++ pixelStream (w * h) colour
    ++ [cs 1, dc 0]

/-- The bytes written in a trace, each with the levels that the command/data-select
line and the chip-select line had when it was written (`none`: not set so far). -/
def writesWithLines : (dcLevel csLevel : Option Nat) → List BusEvent →
    List (Nat × Option Nat × Option Nat)
  | _, _, [] => []
  | _, c, dc v :: t => writesWithLines (some v) c t
  | d, _, cs v :: t => writesWithLines d (some v) t
  | d, c, write b :: t => (b, d, c) :: writesWithLines d c t
  | d, c, serial _ :: t => writesWithLines d c t

/-- The opcode stream of a trace that starts with the two lines at the given levels:
the bytes written while the command/data-select line is at level 0, in order. -/
def opcodesFrom (dcLevel csLevel : Option Nat) (t : List BusEvent) : List Nat :=
  (writesWithLines dcLevel csLevel t).filterMap
    (fun w => if w.2.1 = some 0 then some w.1 else none)

/-- The opcode stream of a whole trace, no line being set at its start. -/
def opcodeStream (t : List BusEvent) : List Nat := opcodesFrom none none t

/-- The screen model of the claims: the colour that each pixel shows. -/
def Screen : Type := Nat → Nat → Nat

/-- The screen all in the background colour. -/
def Screen.blank : Screen := fun _ _ => SCREEN_BACKGROUND

/-- Is the pixel `(px, py)` inside the `w × h` rectangle whose corner is `(x, y)`? -/
def inRect (x y w h px py : Nat) : Bool :=
  decide (x ≤ px ∧ px < x + w ∧ y ≤ py ∧ py < y + h)

/-- The effect of one call of `screen_drawRectangle` in the screen model: an in-bounds
rectangle fill sets exactly the pixels of its window to its colour; a call that the
bounds check rejects puts nothing on the bus and leaves the screen as it is. -/
def Screen.fill (scr : Screen) (c : RectCall) : Screen :=
  if c.x + c.width ≤ SCREEN_WIDTH ∧ c.y + c.height ≤ SCREEN_HEIGHT then
    fun px py => if inRect c.x c.y c.width c.height px py = true then c.colour else scr px py
  else scr

/-- The effect of a list of calls, made one after the other. -/
def Screen.fills (scr : Screen) (calls : List RectCall) : Screen :=
  calls.foldl Screen.fill scr

/-- The sprite and the screen after `createSliderSprite(x0, y0)` followed by one
`moveSlider` for each element of `moves`, the screen starting all background. -/
def spriteRun (fresh : SliderSprite) (x0 y0 : Nat) (moves : List (Nat × Nat)) :
    SliderSprite × Screen :=
  moves.foldl
    (fun st m => ((moveSlider_calls st.1 m.1 m.2).1, st.2.fills (moveSlider_calls st.1 m.1 m.2).2))
    ((createSliderSprite_calls fresh x0 y0).1,
      Screen.blank.fills (createSliderSprite_calls fresh x0 y0).2)

/-- The screen shows the sprite colour on the 24x5 footprint at `(x, y)` and on no
pixel outside it. -/
def showsSpriteExactlyAt (scr : Screen) (x y : Nat) : Prop :=
  ∀ px py, scr px py = SPRITE_SLIDER_COLOUR
    ↔ inRect x y SPRITE_SLIDER_WIDTH SPRITE_SLIDER_HEIGHT px py = true

/-- The mapping as the specification words it: clamp the sample to `[250, 774]`, then
`round(((clamped − 250) / 524) × (screen_width − sprite_width))`, in exact arithmetic. -/
def mapValue_spec (r : Nat) : Int :=
  let c := min (max r 250) 774
  round ((((c : ℚ) - 250) / 524) * ((SCREEN_WIDTH : ℚ) - (SPRITE_SLIDER_WIDTH : ℚ)))

/-! ## Lemmas on the pixel loops -/

theorem loopX_eq (hi lo w : Nat) (hw : w < 256) :
    ∀ (fuel x : Nat), x ≤ w → w - x < fuel →
      drawRectangle_loopX fuel x w hi lo
        = some (List.replicate (w - x) [write hi, write lo]).flatten := by
  intro fuel
  induction fuel with
  | zero => intro x _ h; omega
  | succ n ih =>
    intro x hx hf
    unfold drawRectangle_loopX
    by_cases hlt : x < w
    · have hmod : (x + 1) % 256 = x + 1 := Nat.mod_eq_of_lt (by omega)
      have hsub : w - x = (w - (x + 1)) + 1 := by omega
      rw [if_pos hlt, hmod, ih (x + 1) (by omega) (by omega), hsub, List.replicate_succ]
      simp
    · have hz : w - x = 0 := by omega
      rw [if_neg hlt, hz]
      simp

theorem flatten_replicate_mul {α : Type} (l : List α) (w : Nat) :
    ∀ n : Nat, (List.replicate n (List.replicate w l).flatten).flatten
      = (List.replicate (w * n) l).flatten := by
  intro n
  induction n with
  | zero => simp
  | succ n ih =>
    rw [List.replicate_succ, List.flatten_cons, ih, Nat.mul_succ, Nat.add_comm (w * n) w,
      List.replicate_add, List.flatten_append]

theorem loopY_eq (hi lo w h inner : Nat) (hw : w < 256) (hh : h < 256) (hin : w < inner) :
    ∀ (fuel y : Nat), y ≤ h → h - y < fuel →
      drawRectangle_loopY inner fuel y h w hi lo
        = some (List.replicate (w * (h - y)) [write hi, write lo]).flatten := by
  intro fuel
  induction fuel with
  | zero => intro y _ h; omega
  | succ n ih =>
    intro y hy hf
    unfold drawRectangle_loopY
    by_cases hlt : y < h
    · have hmod : (y + 1) % 256 = y + 1 := Nat.mod_eq_of_lt (by omega)
      have hsub : h - y = (h - (y + 1)) + 1 := by omega
      have hrow := loopX_eq hi lo w hw inner 0 (Nat.zero_le _) (by omega)
      rw [if_pos hlt, hrow, hmod]
      simp only [ih (y + 1) (by omega) (by omega), Option.map_some', Nat.sub_zero]
      rw [hsub, Nat.mul_succ, Nat.add_comm (w * (h - (y + 1))) w, List.replicate_add,
        List.flatten_append]
    · have hz : h - y = 0 := by omega
      rw [if_neg hlt, hz]
      simp

theorem length_pixels (n : Nat) (a b : BusEvent) :
    ((List.replicate n [a, b]).flatten).length = 2 * n := by
  induction n with
  | zero => rfl
  | succ n ih =>
    rw [List.replicate_succ, List.flatten_cons, List.length_append, ih]
    simp only [List.length_cons, List.length_nil]
    omega

theorem colourHigh_eq (colour : Nat) (hc : colour < 65536) :
    (colour >>> 8) % 256 = colour >>> 8 := by
  rw [Nat.shiftRight_eq_div_pow]
  exact Nat.mod_eq_of_lt (by omega)

theorem toU8_corner (a b : Nat) (hb : 1 ≤ b) (hab : a + b ≤ 256) :
    toU8 ((a : Int) + b - 1) = a + b - 1 := by
  unfold toU8
  omega

theorem busTrace_append (s t : List BusEvent) :
    busTrace (s ++ t) = busTrace s ++ busTrace t := by
  simp [busTrace]

theorem busTrace_pixelStream (n colour : Nat) :
    busTrace (pixelStream n colour) = pixelStream n colour := by
  unfold pixelStream
  induction n with
  | zero => rfl
  | succ n ih =>
    rw [List.replicate_succ, List.flatten_cons, busTrace_append, ih]
    rfl

theorem busTrace_screen_send (op : Nat) (buf : List Nat) :
    busTrace (screen_send op buf) = transaction op buf := by
  have hmap : ∀ l : List Nat, (l.map write).filter onBus = l.map write := by
    intro l
    induction l with
    | nil => rfl
    | cons a l ih => simp [onBus]
  simp [busTrace, screen_send, transaction, onBus, hmap]

/-- The in-bounds path of `screen_drawRectangle` in closed form. -/
theorem drawRectangle_inBounds (fuel x y w h colour : Nat) (hfuel : 256 ≤ fuel)
    (hx : x + w ≤ 130) (hy : y + h ≤ 162) :
    screen_drawRectangle fuel x y w h colour
      = some (screen_setWindow x y (toU8 ((x : Int) + w - 1)) (toU8 ((y : Int) + h - 1))
          ++ screen_enterDataMode
          ++ (List.replicate (w * h)
                [write ((colour >>> 8) % 256), write (colour &&& 0xFF)]).flatten
          ++ screen_exitDataMode) := by
  unfold screen_drawRectangle
  have h1 : ¬ ((x : Int) + w > SCREEN_WIDTH ∨ (y : Int) + h > SCREEN_HEIGHT) := by
    simp only [SCREEN_WIDTH, SCREEN_HEIGHT]; omega
  have h2 : ¬ ((x : Int) + w < 0 ∨ (y : Int) + h < 0) := by omega
  rw [if_neg h1, if_neg h2]
  simp only []
  rw [loopY_eq _ _ w h fuel (by omega) (by omega) (by omega) fuel 0 (Nat.zero_le _) (by omega)]
  simp

/-- The bus trace of an in-bounds, non-empty rectangle is `rectFill` with data level 11. -/
theorem busTrace_drawRectangle (fuel x y w h colour : Nat) (hfuel : 256 ≤ fuel)
    (hw : 1 ≤ w) (hh : 1 ≤ h) (hx : x + w ≤ 130) (hy : y + h ≤ 162)
    (hc : colour < 65536) :
    (screen_drawRectangle fuel x y w h colour).map busTrace
      = some (rectFill 11 x y w h colour) := by
  rw [drawRectangle_inBounds fuel x y w h colour hfuel hx hy,
    toU8_corner x w hw (by omega), toU8_corner y h hh (by omega), colourHigh_eq colour hc]
  simp only [Option.map_some', busTrace_append, screen_setWindow, busTrace_screen_send]
  have hp := busTrace_pixelStream (w * h) colour
  unfold pixelStream at hp
  rw [hp]
  rfl

/-! ## Lemmas on the sprite operations -/

theorem writesWithLines_payload (d c : Option Nat) (l : List Nat) (t : List BusEvent) :
    writesWithLines d c (l.map write ++ t)
      = l.map (fun b => (b, d, c)) ++ writesWithLines d c t := by
  induction l with
  | nil => rfl
  | cons a l ih => simp [writesWithLines, ih]

theorem redrawSlider_moved (fuel : Nat) (s : SliderSprite) (hfuel : 256 ≤ fuel)
    (hdrawn : s.drawn = true)
    (hne : ¬ (s.position_x = s.last_position_x ∧ s.position_y = s.last_position_y))
    (hlx : s.last_position_x + 24 ≤ 130) (hly : s.last_position_y + 5 ≤ 162)
    (hpx : s.position_x + 24 ≤ 130) (hpy : s.position_y + 5 ≤ 162) :
    (redrawSlider fuel s).map (fun r => (r.1, busTrace r.2))
      = some ({ s with drawn := true },
          rectFill 11 s.last_position_x s.last_position_y 24 5 0x0000
            ++ rectFill 11 s.position_x s.position_y 24 5 0xFFFF) := by
  have he := busTrace_drawRectangle fuel s.last_position_x s.last_position_y 24 5 0x0000
    hfuel (by decide) (by decide) hlx hly (by decide)
  have hd := busTrace_drawRectangle fuel s.position_x s.position_y 24 5 0xFFFF
    hfuel (by decide) (by decide) hpx hpy (by decide)
  unfold redrawSlider
  rw [if_neg (fun hc => hne hc.2), if_pos hdrawn]
  simp only [SPRITE_SLIDER_WIDTH, SPRITE_SLIDER_HEIGHT, SCREEN_BACKGROUND, SPRITE_SLIDER_COLOUR]
  cases h1 : screen_drawRectangle fuel s.last_position_x s.last_position_y 24 5 0x0000 with
  | none => rw [h1] at he; simp at he
  | some erase =>
    cases h2 : screen_drawRectangle fuel s.position_x s.position_y 24 5 0xFFFF with
    | none => rw [h2] at hd; simp at hd
    | some draw =>
      rw [h1] at he
      rw [h2] at hd
      simp only [Option.map_some', Option.some.injEq] at he hd
      simp only [Option.map_some', busTrace_append, he, hd]

theorem redrawSlider_first (fuel : Nat) (s : SliderSprite) (hfuel : 256 ≤ fuel)
    (hdrawn : s.drawn = false)
    (hpx : s.position_x + 24 ≤ 130) (hpy : s.position_y + 5 ≤ 162) :
    (redrawSlider fuel s).map (fun r => (r.1, busTrace r.2))
      = some ({ s with drawn := true }, rectFill 11 s.position_x s.position_y 24 5 0xFFFF) := by
  have hd := busTrace_drawRectangle fuel s.position_x s.position_y 24 5 0xFFFF
    hfuel (by decide) (by decide) hpx hpy (by decide)
  unfold redrawSlider
  have hn : ¬ (s.drawn = true ∧ s.position_x = s.last_position_x
      ∧ s.position_y = s.last_position_y) := by
    rw [hdrawn]; simp
  have hn2 : ¬ (s.drawn = true) := by rw [hdrawn]; simp
  rw [if_neg hn, if_neg hn2]
  simp only [SPRITE_SLIDER_WIDTH, SPRITE_SLIDER_HEIGHT, SPRITE_SLIDER_COLOUR]
  cases h2 : screen_drawRectangle fuel s.position_x s.position_y 24 5 0xFFFF with
  | none => rw [h2] at hd; simp at hd
  | some draw =>
    rw [h2] at hd
    simp only [Option.map_some', Option.some.injEq] at hd
    simp only [Option.map_some', busTrace_append, hd]
    rfl

/-! ## Lemmas on the input mapping -/

set_option maxRecDepth 100000 in
theorem f32_interpolation :
    ∀ v, v < 525 →
      cRound (f32Mul (f32Div (f32Sub (f32OfNat (v + 250)) (f32OfNat 250)) (f32OfNat 524))
        (f32OfNat 106)) % 256 = (53 * v + 131) / 262 := by
  decide!

theorem mapValue_of_gt (r : Nat) (h : 744 < r) : mapValue r = 106 := by
  unfold mapValue
  simp only [gt_iff_lt, if_pos h]
  decide!

theorem mapValue_of_lt (r : Nat) (h : r < 250) : mapValue r = 0 := by
  unfold mapValue
  have h1 : ¬ (744 < r) := by omega
  simp only [gt_iff_lt, if_neg h1, if_pos h]
  decide!

theorem mapValue_mid (r : Nat) (h1 : 250 ≤ r) (h2 : r ≤ 744) :
    mapValue r = (53 * (r - 250) + 131) / 262 := by
  unfold mapValue
  have h3 : ¬ (744 < r) := by omega
  have h4 : ¬ (r < 250) := by omega
  have h5 : r = (r - 250) + 250 := by omega
  simp only [gt_iff_lt, if_neg h3, if_neg h4]
  have hw : (SCREEN_WIDTH - SPRITE_SLIDER_WIDTH) % 256 = 106 := by decide
  rw [hw]
  have := f32_interpolation (r - 250) (by omega)
  rw [← h5] at this
  exact this

/-! ## The claims -/

/-- C1: on an already-drawn sprite at P, a move to Q ≠ P with both 24x5 footprints
inside the 130x162 screen terminates and puts on the bus exactly the rectangle fill at
P in the background colour followed by the rectangle fill at Q in the sprite colour,
nothing else; afterwards position = Q, last_position = P and drawn = true. -/
theorem C1_moveSlider_erase_then_draw (fuel : Nat) (s : SliderSprite) (qx qy : Nat)
    (hfuel : 256 ≤ fuel) (hdrawn : s.drawn = true)
    (hne : ¬ (qx = s.position_x ∧ qy = s.position_y))
    (hP : s.position_x + SPRITE_SLIDER_WIDTH ≤ SCREEN_WIDTH
      ∧ s.position_y + SPRITE_SLIDER_HEIGHT ≤ SCREEN_HEIGHT)
    (hQ : qx + SPRITE_SLIDER_WIDTH ≤ SCREEN_WIDTH ∧ qy + SPRITE_SLIDER_HEIGHT ≤ SCREEN_HEIGHT) :
    (moveSlider fuel s qx qy).map (fun r => (r.1, busTrace r.2))
      = some ({ position_x := qx, position_y := qy,
                last_position_x := s.position_x, last_position_y := s.position_y,
                drawn := true },
          rectFill 11 s.position_x s.position_y 24 5 SCREEN_BACKGROUND
            ++ rectFill 11 qx qy 24 5 SPRITE_SLIDER_COLOUR) := by
  simp only [SPRITE_SLIDER_WIDTH, SPRITE_SLIDER_HEIGHT, SCREEN_WIDTH, SCREEN_HEIGHT] at hP hQ
  unfold moveSlider
  exact redrawSlider_moved fuel _ hfuel hdrawn hne hP.1 hP.2 hQ.1 hQ.2

/-- C1 at a drawn sprite at (0, 20) moved to (51, 20). -/
theorem C1_witness :
    (moveSlider 256 ⟨0, 20, 0, 20, true⟩ 51 20).map (fun r => (r.1, busTrace r.2))
      = some ({ position_x := 51, position_y := 20, last_position_x := 0,
                last_position_y := 20, drawn := true },
          rectFill 11 0 20 24 5 SCREEN_BACKGROUND
            ++ rectFill 11 51 20 24 5 SPRITE_SLIDER_COLOUR) :=
  C1_moveSlider_erase_then_draw 256 ⟨0, 20, 0, 20, true⟩ 51 20 (by decide) rfl (by decide)
    (by decide) (by decide)

/-- C2: a rectangle with x+w > 130 or y+h > 162, the sums taken without wrap-around,
makes `screen_drawRectangle` return at once with an empty trace: no line is changed,
no byte written, the window is not set. -/
theorem C2_drawRectangle_outOfBounds_silent (fuel x y w h colour : Nat)
    (hout : x + w > SCREEN_WIDTH ∨ y + h > SCREEN_HEIGHT) :
    screen_drawRectangle fuel x y w h colour = some [] := by
  unfold screen_drawRectangle
  have h1 : (x : Int) + w > SCREEN_WIDTH ∨ (y : Int) + h > SCREEN_HEIGHT := by
    rcases hout with h | h
    · left; exact_mod_cast h
    · right; exact_mod_cast h
  rw [if_pos h1]

/-- C2 at x = 200, w = 100, whose 8-bit sum would wrap to 44. -/
theorem C2_witness :
    (200 + 100 > SCREEN_WIDTH ∨ 0 + 5 > SCREEN_HEIGHT)
      ∧ screen_drawRectangle 256 200 0 100 5 0xFFFF = some [] :=
  ⟨by decide, C2_drawRectangle_outOfBounds_silent 256 200 0 100 5 0xFFFF (by decide)⟩

/-- C3: an in-bounds rectangle with w, h ≥ 1 terminates; its bus trace starts with the
window set to the inclusive corners (x, y, x+w-1, y+h-1), and after the memory-write
opcode come exactly w*h pixels (2*w*h bytes), each the byte colour >> 8 then the byte
colour & 0xFF; the two loops with 8-bit counters return for every 8-bit w and h. -/
theorem C3_drawRectangle_window_and_pixels (fuel x y w h colour : Nat) (hfuel : 256 ≤ fuel)
    (hw : 1 ≤ w) (hh : 1 ≤ h) (hx : x + w ≤ SCREEN_WIDTH) (hy : y + h ≤ SCREEN_HEIGHT)
    (hc : colour < 65536) :
    (screen_drawRectangle fuel x y w h colour).map busTrace
        = some (windowSet x y (x + w - 1) (y + h - 1)
            ++ [dc 0, cs 0, write RAMWR, dc 11]
            ++ (List.replicate (w * h) [write (colour >>> 8), write (colour &&& 0xFF)]).flatten
            ++ [cs 1, dc 0])
      ∧ ((List.replicate (w * h)
            [write (colour >>> 8), write (colour &&& 0xFF)]).flatten).length = 2 * w * h
      ∧ ∀ w' h' hi lo : Nat, w' < 256 → h' < 256 →
          ∃ t, drawRectangle_loopY fuel fuel 0 h' w' hi lo = some t
            ∧ t.length = 2 * w' * h' := by
  simp only [SCREEN_WIDTH, SCREEN_HEIGHT] at hx hy
  refine ⟨?_, ?_, ?_⟩
  · exact busTrace_drawRectangle fuel x y w h colour hfuel hw hh hx hy hc
  · rw [length_pixels, Nat.mul_assoc]
  · intro w' h' hi lo hw' hh'
    refine ⟨_, loopY_eq hi lo w' h' fuel hw' hh' (by omega) fuel 0 (Nat.zero_le _) (by omega), ?_⟩
    rw [length_pixels, Nat.mul_assoc, Nat.sub_zero]

/-- C3 at the 24x5 sprite rectangle at (51, 20) in the sprite colour. -/
theorem C3_witness :
    (screen_drawRectangle 256 51 20 24 5 0xFFFF).map busTrace
        = some (windowSet 51 20 (51 + 24 - 1) (20 + 5 - 1)
            ++ [dc 0, cs 0, write RAMWR, dc 11]
            ++ (List.replicate (24 * 5) [write (0xFFFF >>> 8), write (0xFFFF &&& 0xFF)]).flatten
            ++ [cs 1, dc 0])
      ∧ ((List.replicate (24 * 5)
            [write (0xFFFF >>> 8), write (0xFFFF &&& 0xFF)]).flatten).length = 2 * 24 * 5
      ∧ ∀ w' h' hi lo : Nat, w' < 256 → h' < 256 →
          ∃ t, drawRectangle_loopY 256 256 0 h' w' hi lo = some t
            ∧ t.length = 2 * w' * h' :=
  C3_drawRectangle_window_and_pixels 256 51 20 24 5 0xFFFF (by decide) (by decide) (by decide)
    (by decide) (by decide) (by decide)

/-- C4: at the sample 745 the source's `mapValue` returns 106, while the specified
mapping, clamp to [250, 774] then round(((c − 250) / 524) × 106), gives 100: the
source's upper clamp compares with 744, not 774. -/
theorem C4_mapValue_upper_clamp_at_745 :
    mapValue 745 = 106 ∧ mapValue_spec 745 = 100 := by
  constructor
  · exact mapValue_of_gt 745 (by decide)
  · decide!

/-- C5: for every raw sample r in [0, 1024] the pixel `mapValue` returns lies in
[0, screen_width − sprite_width] = [0, 106]. -/
theorem C5_mapValue_range (r : Nat) (hr : r ≤ 1024) :
    0 ≤ mapValue r ∧ mapValue r ≤ SCREEN_WIDTH - SPRITE_SLIDER_WIDTH
      ∧ SCREEN_WIDTH - SPRITE_SLIDER_WIDTH = 106 := by
  refine ⟨Nat.zero_le _, ?_, by decide⟩
  have hw : SCREEN_WIDTH - SPRITE_SLIDER_WIDTH = 106 := by decide
  rw [hw]
  by_cases h1 : 744 < r
  · rw [mapValue_of_gt r h1]
  · by_cases h2 : r < 250
    · rw [mapValue_of_lt r h2]; omega
    · rw [mapValue_mid r (by omega) (by omega)]
      omega

/-- C5 at the sample 500, which maps to 51. -/
theorem C5_witness :
    0 ≤ mapValue 500 ∧ mapValue 500 ≤ SCREEN_WIDTH - SPRITE_SLIDER_WIDTH
      ∧ SCREEN_WIDTH - SPRITE_SLIDER_WIDTH = 106 :=
  C5_mapValue_range 500 (by decide)

/-- C6: `mapValue` saturates at the deadzone ends: 250 maps to 0, 774 maps to 106,
every r ≤ 250 maps to what 250 maps to, every r ≥ 774 to what 774 maps to. -/
theorem C6_mapValue_saturates :
    mapValue 250 = 0 ∧ mapValue 774 = SCREEN_WIDTH - SPRITE_SLIDER_WIDTH
      ∧ (∀ r, r ≤ 250 → mapValue r = mapValue 250)
      ∧ (∀ r, 774 ≤ r → mapValue r = mapValue 774) := by
  have h250 : mapValue 250 = 0 := by
    rw [mapValue_mid 250 (by decide) (by decide)]
  have h774 : mapValue 774 = 106 := mapValue_of_gt 774 (by decide)
  refine ⟨h250, h774, ?_, ?_⟩
  · intro r hr
    rcases Nat.lt_or_ge r 250 with h | h
    · rw [mapValue_of_lt r h, h250]
    · have : r = 250 := by omega
      rw [this]
  · intro r hr
    rw [mapValue_of_gt r (by omega), h774]

/-- C7: a move of a drawn sprite to the position it already has puts nothing on the bus
(no event at all, with any fuel), leaves position and drawn as they were, and leaves
last_position equal to position. -/
theorem C7_moveSlider_stationary (fuel : Nat) (s : SliderSprite) (x y : Nat)
    (hdrawn : s.drawn = true) (hx : x = s.position_x) (hy : y = s.position_y) :
    ∃ s', moveSlider fuel s x y = some (s', [])
      ∧ s'.position_x = s.position_x ∧ s'.position_y = s.position_y
      ∧ s'.drawn = s.drawn
      ∧ s'.last_position_x = s'.position_x ∧ s'.last_position_y = s'.position_y := by
  subst hx hy
  refine ⟨{ s with last_position_x := s.position_x, last_position_y := s.position_y },
    ?_, rfl, rfl, rfl, rfl, rfl⟩
  unfold moveSlider redrawSlider
  rw [if_pos ⟨hdrawn, rfl, rfl⟩]

/-- C7 at a drawn sprite at (51, 20) whose last position was (0, 20). -/
theorem C7_witness :
    ∃ s', moveSlider 0 ⟨51, 20, 0, 20, true⟩ 51 20 = some (s', [])
      ∧ s'.position_x = 51 ∧ s'.position_y = 20
      ∧ s'.drawn = true
      ∧ s'.last_position_x = s'.position_x ∧ s'.last_position_y = s'.position_y :=
  C7_moveSlider_stationary 0 ⟨51, 20, 0, 20, true⟩ 51 20 rfl rfl rfl

/-- C8: for (x, y) with the 24x5 footprint inside the screen, `createSliderSprite`
terminates, puts on the bus exactly one sprite-coloured 24x5 rectangle fill at (x, y)
(no erase), and returns a sprite with position = last_position = (x, y) and drawn = true;
neither the sprite nor the trace depends on what the fresh record held. -/
theorem C8_createSliderSprite_first_draw (fuel : Nat) (fresh : SliderSprite) (x y : Nat)
    (hfuel : 256 ≤ fuel)
    (hx : x + SPRITE_SLIDER_WIDTH ≤ SCREEN_WIDTH) (hy : y + SPRITE_SLIDER_HEIGHT ≤ SCREEN_HEIGHT) :
    (createSliderSprite fuel fresh x y).map (fun r => (r.1, busTrace r.2))
        = some ({ position_x := x, position_y := y, last_position_x := x,
                  last_position_y := y, drawn := true },
            rectFill 11 x y 24 5 SPRITE_SLIDER_COLOUR)
      ∧ ∀ other : SliderSprite,
          createSliderSprite fuel other x y = createSliderSprite fuel fresh x y := by
  simp only [SPRITE_SLIDER_WIDTH, SPRITE_SLIDER_HEIGHT, SCREEN_WIDTH, SCREEN_HEIGHT] at hx hy
  refine ⟨?_, fun _ => rfl⟩
  unfold createSliderSprite moveSlider
  exact redrawSlider_first fuel _ hfuel rfl hx hy

/-- C8 at (0, 20), the fresh record holding other values with drawn set. -/
theorem C8_witness :
    (createSliderSprite 256 ⟨7, 9, 200, 250, true⟩ 0 20).map (fun r => (r.1, busTrace r.2))
        = some ({ position_x := 0, position_y := 20, last_position_x := 0,
                  last_position_y := 20, drawn := true },
            rectFill 11 0 20 24 5 SPRITE_SLIDER_COLOUR)
      ∧ ∀ other : SliderSprite,
          createSliderSprite 256 other 0 20
            = createSliderSprite 256 ⟨7, 9, 200, 250, true⟩ 0 20 :=
  C8_createSliderSprite_first_draw 256 ⟨7, 9, 200, 250, true⟩ 0 20 (by decide) (by decide)
    (by decide)

/-- C9: `screen_send` emits one transaction: the opcode is written with chip-select at 0
and command/data-select at 0, then command/data-select is set to 1 and the payload bytes
are written in index order with chip-select still at 0, then chip-select is set to 1;
n+1 bytes are written, and chip-select is set to nothing but 0 before the last event. -/
theorem C9_screen_send_transaction (op : Nat) (buf : List Nat) :
    busTrace (screen_send op buf)
        = [dc 0, cs 0, write op, dc 1] ++ buf.map write ++ [cs 1]
      ∧ ((screen_send op buf).filter isWrite).length = buf.length + 1
      ∧ (∀ d c, writesWithLines d c (screen_send op buf)
          = (op, some 0, some 0) :: buf.map (fun b => (b, some 1, some 0)))
      ∧ (∀ v, cs v ∈ (busTrace (screen_send op buf)).dropLast → v = 0)
      ∧ (busTrace (screen_send op buf)).getLast? = some (cs 1) := by
  have hbus := busTrace_screen_send op buf
  unfold transaction at hbus
  refine ⟨hbus, ?_, ?_, ?_, ?_⟩
  · have hmap : ∀ l : List Nat, ((l.map write).filter isWrite).length = l.length := by
      intro l
      induction l with
      | nil => rfl
      | cons a l ih => simp [isWrite, ih]
    simp [screen_send, isWrite, List.filter_append, hmap]
  · intro d c
    have := writesWithLines_payload (some 1) (some 0) buf [cs 1]
    have e : screen_send op buf
        = dc 0 :: cs 0 :: write op :: serial op :: dc 1 :: (buf.map write ++ [cs 1]) := by
      simp [screen_send]
    rw [e]
    simp only [writesWithLines]
    rw [this]
    simp [writesWithLines]
  · intro v hv
    rw [hbus, List.dropLast_concat] at hv
    simp at hv
    exact hv
  · rw [hbus, List.getLast?_concat]

/-- C10: for the in-bounds call `screen_drawRectangle(0, 0, 1, 1, 0xFFFF)` the bytes
written, each with the command/data-select and chip-select levels in force, are the
window, then RAMWR at levels (0, 0), then the two pixel bytes at command/data-select
level 11, the value `screen_enterDataMode` writes, not level 1. -/
theorem C10_pixel_bytes_at_level_11 :
    (screen_drawRectangle 256 0 0 1 1 0xFFFF).map (writesWithLines none none)
      = some [(0x2A, some 0, some 0), (0, some 1, some 0), (0, some 1, some 0),
              (0, some 1, some 0), (0, some 1, some 0),
              (0x2B, some 0, some 0), (0, some 1, some 0), (0, some 1, some 0),
              (0, some 1, some 0), (0, some 1, some 0),
              (0x2C, some 0, some 0),
              (0xFF, some 11, some 0), (0xFF, some 11, some 0)] := by
  decide

/-! ## Lemmas on opcode streams -/

theorem opcodes_of_data (lvl : Nat) (hl : lvl ≠ 0) (c : Option Nat) (l : List Nat) :
    List.filterMap (fun w : Nat × Option Nat × Option Nat =>
        if w.2.1 = some 0 then some w.1 else none)
      (l.map (fun b => (b, some lvl, c))) = [] := by
  induction l with
  | nil => rfl
  | cons a l ih =>
    rw [List.map_cons, List.filterMap_cons]
    simp only [Option.some.injEq, if_neg hl]
    exact ih

theorem opcodesFrom_send (d c : Option Nat) (op : Nat) (buf : List Nat) (t : List BusEvent) :
    opcodesFrom d c (screen_send op buf ++ t) = op :: opcodesFrom (some 1) (some 1) t := by
  have e : screen_send op buf ++ t
      = dc 0 :: cs 0 :: write op :: serial op :: dc 1 :: (buf.map write ++ (cs 1 :: t)) := by
    simp [screen_send]
  unfold opcodesFrom
  rw [e]
  simp only [writesWithLines]
  rw [writesWithLines_payload]
  simp only [writesWithLines, List.filterMap_cons, List.filterMap_append, if_true]
  rw [opcodes_of_data 1 (by decide)]
  rfl

theorem pixels_as_writes (n a b : Nat) :
    (List.replicate n [write a, write b]).flatten
      = ((List.replicate n [a, b]).flatten).map write := by
  induction n with
  | zero => rfl
  | succ n ih =>
    rw [List.replicate_succ, List.replicate_succ, List.flatten_cons, List.flatten_cons, ih]
    rfl

theorem opcodesFrom_stream (d c : Option Nat) (n a b : Nat) :
    opcodesFrom d c (screen_enterDataMode
        ++ (List.replicate n [write a, write b]).flatten ++ screen_exitDataMode)
      = [RAMWR] := by
  unfold opcodesFrom
  rw [pixels_as_writes]
  have e : screen_enterDataMode ++ ((List.replicate n [a, b]).flatten).map write
        ++ screen_exitDataMode
      = dc 0 :: cs 0 :: write RAMWR :: dc 11
          :: (((List.replicate n [a, b]).flatten).map write ++ [cs 1, dc 0]) := by
    simp [screen_enterDataMode, screen_exitDataMode]
  rw [e]
  simp only [writesWithLines]
  rw [writesWithLines_payload]
  simp only [writesWithLines, List.filterMap_cons, List.filterMap_append, if_true,
    List.append_nil]
  rw [opcodes_of_data 11 (by decide)]

theorem opcodesFrom_drawRectangle (fuel x y w h colour : Nat) (hfuel : 256 ≤ fuel)
    (hx : x + w ≤ 130) (hy : y + h ≤ 162) (d c : Option Nat) :
    (screen_drawRectangle fuel x y w h colour).map (opcodesFrom d c)
      = some [CASET, RASET, RAMWR] := by
  rw [drawRectangle_inBounds fuel x y w h colour hfuel hx hy]
  simp only [Option.map_some', screen_setWindow, List.append_assoc, opcodesFrom_send]
  rw [← List.append_assoc, opcodesFrom_stream]

theorem drawRectangle_outOfBounds (fuel x y w h colour : Nat)
    (hout : x + w > SCREEN_WIDTH ∨ y + h > SCREEN_HEIGHT) :
    screen_drawRectangle fuel x y w h colour = some [] := by
  unfold screen_drawRectangle
  have h1 : (x : Int) + w > SCREEN_WIDTH ∨ (y : Int) + h > SCREEN_HEIGHT := by
    rcases hout with h | h
    · left; exact_mod_cast h
    · right; exact_mod_cast h
  rw [if_pos h1]

theorem mapValue_le_106 (r : Nat) : mapValue r ≤ 106 := by
  by_cases h1 : 744 < r
  · rw [mapValue_of_gt r h1]
  · by_cases h2 : r < 250
    · rw [mapValue_of_lt r h2]; omega
    · rw [mapValue_mid r (by omega) (by omega)]
      omega

/-! ## The claims, continued -/

/-- C11: `screen_setWindow` emits exactly two transactions, in this order: CASET (0x2A)
with payload [0, x0, 0, x1], then RASET (0x2B) with payload [0, y0, 0, y1]. -/
theorem C11_screen_setWindow_two_transactions (x0 y0 x1 y1 : Nat) :
    busTrace (screen_setWindow x0 y0 x1 y1)
        = transaction CASET [0, x0, 0, x1] ++ transaction RASET [0, y0, 0, y1]
      ∧ busTrace (screen_setWindow x0 y0 x1 y1)
        = [dc 0, cs 0, write 0x2A, dc 1, write 0, write x0, write 0, write x1, cs 1,
           dc 0, cs 0, write 0x2B, dc 1, write 0, write y0, write 0, write y1, cs 1]
      ∧ opcodeStream (screen_setWindow x0 y0 x1 y1) = [0x2A, 0x2B] := by
  have h : busTrace (screen_setWindow x0 y0 x1 y1)
      = transaction CASET [0, x0, 0, x1] ++ transaction RASET [0, y0, 0, y1] := by
    simp only [screen_setWindow, busTrace_append, busTrace_screen_send]
  refine ⟨h, ?_, ?_⟩
  · rw [h]; rfl
  · have := opcodesFrom_send none none CASET [0, x0, 0, x1] (screen_send RASET [0, y0, 0, y1])
    unfold opcodeStream screen_setWindow
    rw [this]
    have h2 := opcodesFrom_send (some 1) (some 1) RASET [0, y0, 0, y1] []
    rw [List.append_nil] at h2
    rw [h2]
    rfl

/-- C12: `screen_initialise` terminates; its bus trace is the twenty configuration
transactions SWRESET, SLPOUT, FRMCTR1, FRMCTR2, INVCTR, PWCTR1..PWCTR5, VMCTR1, INVOFF,
MADCTL, COLMOD, CASET, RASET, GMCTRP1, GMCTRN1, NORON, DISPON in that order, followed
by the full-screen fill in the background colour, which the bounds check lets through:
window (0, 0, 129, 161), RAMWR, and exactly 130*162 = 21060 pixels of 0x0000.  The
opcode stream is the twenty opcodes, then CASET, RASET, RAMWR of the fill, so SLPOUT
and COLMOD come before the first RAMWR. -/
theorem C12_screen_initialise_sequence (fuel : Nat) (hfuel : 256 ≤ fuel) :
    (screen_initialise fuel).map (fun r => (r.1, busTrace r.2))
        = some (⟨4000000, 0⟩,
            transaction SWRESET [1] ++ transaction SLPOUT [1]
              ++ transaction FRMCTR1 [0x01, 0x2C, 0x2D]
              ++ transaction FRMCTR2 [0x01, 0x2C, 0x2D, 0x01, 0x2C, 0x2D]
              ++ transaction INVCTR [0x07]
              ++ transaction PWCTR1 [0xA2, 0x02, 0x84]
              ++ transaction PWCTR2 [0x8A, 0x2A]
              ++ transaction PWCTR3 [0x0A, 0x00]
              ++ transaction PWCTR4 [0x8A, 0x2A]
              ++ transaction PWCTR5 [0x8A, 0xEE]
              ++ transaction VMCTR1 [0x0E]
              ++ transaction INVOFF []
              ++ transaction MADCTL [0xC8]
              ++ transaction COLMOD [0x05]
              ++ transaction CASET [0x00, 0x00, 0x00, 0x7F]
              ++ transaction RASET [0x00, 0x00, 0x00, 0x9F]
              ++ transaction GMCTRP1 [0x02, 0x1C, 0x07, 0x12, 0x37, 0x32, 0x29, 0x2D,
                                      0x29, 0x25, 0x2B, 0x39, 0x00, 0x01, 0x03, 0x10]
              ++ transaction GMCTRN1 [0x03, 0x1D, 0x07, 0x06, 0x2E, 0x2C, 0x29, 0x2D,
                                      0x2E, 0x2E, 0x37, 0x3F, 0x00, 0x00, 0x02, 0x10]
              ++ transaction NORON []
              ++ transaction DISPON []
              ++ rectFill 11 0 0 SCREEN_WIDTH SCREEN_HEIGHT SCREEN_BACKGROUND)
      ∧ (screen_initialise fuel).map (fun r => opcodeStream r.2)
        = some [0x01, 0x11, 0xB1, 0xB2, 0xB4, 0xC0, 0xC1, 0xC2, 0xC3, 0xC4, 0xC5, 0x20,
                0x36, 0x3A, 0x2A, 0x2B, 0xE0, 0xE1, 0x13, 0x29, 0x2A, 0x2B, 0x2C]
      ∧ rectFill 11 0 0 SCREEN_WIDTH SCREEN_HEIGHT SCREEN_BACKGROUND
        = windowSet 0 0 129 161 ++ [dc 0, cs 0, write RAMWR, dc 11]
            ++ pixelStream 21060 0x0000 ++ [cs 1, dc 0]
      ∧ pixelStream 21060 0x0000 = (List.replicate (130 * 162) [write 0, write 0]).flatten
      ∧ (pixelStream 21060 0x0000).length = 2 * 21060 := by
  have hb := busTrace_drawRectangle fuel 0 0 SCREEN_WIDTH SCREEN_HEIGHT SCREEN_BACKGROUND
    hfuel (by decide) (by decide) (by decide) (by decide) (by decide)
  have ho := opcodesFrom_drawRectangle fuel 0 0 SCREEN_WIDTH SCREEN_HEIGHT SCREEN_BACKGROUND
    hfuel (by decide) (by decide) (some 1) (some 1)
  refine ⟨?_, ?_, rfl, rfl, length_pixels 21060 _ _⟩
  · unfold screen_initialise screen_setScreenColour
    cases hf : screen_drawRectangle fuel 0 0 SCREEN_WIDTH SCREEN_HEIGHT SCREEN_BACKGROUND with
    | none => rw [hf] at hb; simp at hb
    | some fill =>
      rw [hf] at hb
      simp only [Option.map_some', Option.some.injEq] at hb
      simp only [Option.map_some', busTrace_append, busTrace_screen_send, hb]
  · unfold screen_initialise screen_setScreenColour
    cases hf : screen_drawRectangle fuel 0 0 SCREEN_WIDTH SCREEN_HEIGHT SCREEN_BACKGROUND with
    | none => rw [hf] at hb; simp at hb
    | some fill =>
      rw [hf] at ho
      simp only [Option.map_some', Option.some.injEq] at ho
      simp only [Option.map_some', opcodeStream, List.append_assoc, opcodesFrom_send, ho]
      rfl

/-- C12 with fuel 256. -/
theorem C12_witness :
    (screen_initialise 256).map (fun r => opcodeStream r.2)
        = some [0x01, 0x11, 0xB1, 0xB2, 0xB4, 0xC0, 0xC1, 0xC2, 0xC3, 0xC4, 0xC5, 0x20,
                0x36, 0x3A, 0x2A, 0x2B, 0xE0, 0xE1, 0x13, 0x29, 0x2A, 0x2B, 0x2C] :=
  (C12_screen_initialise_sequence 256 (by decide)).2.1

/-- C15: the samples of [250, 774] whose exact value (r-250)*106/524 is a half are
381 (26.5) and 643 (79.5), where `mapValue` returns 27 and 80, halves away from zero;
on [250, 744] the result is within 1/2 of the exact value; at 745 `mapValue` returns
106, which is not within 1/2 of the exact value 495*106/524 (the upper clamp compares
with 744). -/
theorem C15_mapValue_rounding :
    (∀ r : Nat, 250 ≤ r → r ≤ 774 →
        ((∃ k : Int, ((r : ℚ) - 250) * 106 / 524 = (k : ℚ) + 1 / 2) ↔ (r = 381 ∨ r = 643)))
      ∧ mapValue 381 = 27 ∧ mapValue 643 = 80
      ∧ (∀ r : Nat, 250 ≤ r → r ≤ 744 →
          |(mapValue r : ℚ) - ((r : ℚ) - 250) * 106 / 524| ≤ 1 / 2)
      ∧ mapValue 745 = 106
      ∧ ¬ (|((mapValue 745 : Nat) : ℚ) - ((745 : ℚ) - 250) * 106 / 524| ≤ 1 / 2) := by
  refine ⟨?_, ?_, ?_, ?_, mapValue_of_gt 745 (by decide), ?_⟩
  · intro r h1 h2
    obtain ⟨v, rfl⟩ : ∃ v, r = v + 250 := ⟨r - 250, by omega⟩
    have hv : ((v + 250 : Nat) : ℚ) - 250 = (v : ℚ) := by push_cast; ring
    rw [hv]
    constructor
    · rintro ⟨k, hk⟩
      have h3 : (v : ℚ) * 106 = 524 * (k : ℚ) + 262 := by
        field_simp at hk
        linarith
      have h4 : (v : Int) * 106 = 524 * k + 262 := by exact_mod_cast h3
      omega
    · rintro (h | h)
      · refine ⟨26, ?_⟩
        have : v = 131 := by omega
        subst this
        norm_num
      · refine ⟨79, ?_⟩
        have : v = 393 := by omega
        subst this
        norm_num
  · rw [mapValue_mid 381 (by decide) (by decide)]
  · rw [mapValue_mid 643 (by decide) (by decide)]
  · intro r h1 h2
    rw [mapValue_mid r h1 h2]
    obtain ⟨v, rfl⟩ : ∃ v, r = v + 250 := ⟨r - 250, by omega⟩
    have hv : ((v + 250 : Nat) : ℚ) - 250 = (v : ℚ) := by push_cast; ring
    rw [hv, Nat.add_sub_cancel]
    have hlo : 262 * ((53 * v + 131) / 262) ≤ 53 * v + 131 := Nat.mul_div_le _ _
    have hhi : 53 * v + 131 < 262 * ((53 * v + 131) / 262) + 262 := by
      have := Nat.lt_div_mul_add (a := 53 * v + 131) (b := 262) (by decide)
      omega
    have hlo' : (262 : ℚ) * (((53 * v + 131) / 262 : Nat) : ℚ) ≤ 53 * (v : ℚ) + 131 := by
      exact_mod_cast hlo
    have hhi' : 53 * (v : ℚ) + 131 < 262 * (((53 * v + 131) / 262 : Nat) : ℚ) + 262 := by
      exact_mod_cast hhi
    rw [abs_le]
    constructor <;> linarith
  · rw [mapValue_of_gt 745 (by decide)]
    norm_num [abs_le]

/-- C18: for (x, y) with x+24 > 130 or y+5 > 162, `createSliderSprite` emits nothing
and still returns a sprite with drawn = true, and a following `moveSlider` to the same
(x, y) emits nothing either: the dropped draw is not retried. -/
theorem C18_dropped_draw_never_retried (fuel : Nat) (fresh : SliderSprite) (x y : Nat)
    (hout : x + SPRITE_SLIDER_WIDTH > SCREEN_WIDTH ∨ y + SPRITE_SLIDER_HEIGHT > SCREEN_HEIGHT) :
    createSliderSprite fuel fresh x y
        = some ({ position_x := x, position_y := y, last_position_x := x,
                  last_position_y := y, drawn := true }, [])
      ∧ moveSlider fuel { position_x := x, position_y := y, last_position_x := x,
                          last_position_y := y, drawn := true } x y
        = some ({ position_x := x, position_y := y, last_position_x := x,
                  last_position_y := y, drawn := true }, []) := by
  constructor
  · have hd := drawRectangle_outOfBounds fuel x y SPRITE_SLIDER_WIDTH
      SPRITE_SLIDER_HEIGHT SPRITE_SLIDER_COLOUR hout
    unfold createSliderSprite moveSlider redrawSlider
    simp [hd]
  · unfold moveSlider redrawSlider
    simp

/-- C18 at (120, 20), where 120 + 24 > 130. -/
theorem C18_witness :
    createSliderSprite 256 ⟨0, 0, 0, 0, false⟩ 120 20
        = some ({ position_x := 120, position_y := 20, last_position_x := 120,
                  last_position_y := 20, drawn := true }, [])
      ∧ moveSlider 256 { position_x := 120, position_y := 20, last_position_x := 120,
                         last_position_y := 20, drawn := true } 120 20
        = some ({ position_x := 120, position_y := 20, last_position_x := 120,
                  last_position_y := 20, drawn := true }, []) :=
  C18_dropped_draw_never_retried 256 ⟨0, 0, 0, 0, false⟩ 120 20 (by decide)

/-- C19: `mapValue` is monotone non-decreasing: for 16-bit samples r1 ≤ r2,
mapValue(r1) ≤ mapValue(r2). -/
theorem C19_mapValue_monotone (r1 r2 : Nat) (h16 : r2 < 65536) (hle : r1 ≤ r2) :
    mapValue r1 ≤ mapValue r2 := by
  by_cases h2 : 744 < r2
  · rw [mapValue_of_gt r2 h2]
    exact (mapValue_le_106 r1)
  · by_cases h1 : r1 < 250
    · rw [mapValue_of_lt r1 h1]
      exact Nat.zero_le _
    · rw [mapValue_mid r1 (by omega) (by omega), mapValue_mid r2 (by omega) (by omega)]
      omega

/-- C19 at the samples 744 and 745, the two sides of the upper clamp. -/
theorem C19_witness : mapValue 744 ≤ mapValue 745 :=
  C19_mapValue_monotone 744 745 (by decide) (by decide)

/-- C20: the second guard of `screen_drawRectangle` never holds, and the function
returns the same trace as the version without that guard, for every input and fuel. -/
theorem C20_second_guard_unreachable (fuel x y w h colour : Nat) :
    ¬ ((x : Int) + w < 0 ∨ (y : Int) + h < 0)
      ∧ screen_drawRectangle fuel x y w h colour
        = screen_drawRectangle_withoutSecondGuard fuel x y w h colour := by
  have hg : ¬ ((x : Int) + w < 0 ∨ (y : Int) + h < 0) := by omega
  refine ⟨hg, ?_⟩
  unfold screen_drawRectangle screen_drawRectangle_withoutSecondGuard
  rw [if_neg hg]

/-! ## Lemmas on the screen model -/

/-- The events of `redrawSlider` are the events of the calls it makes. -/
theorem redrawSlider_eq_calls (fuel : Nat) (s : SliderSprite) :
    redrawSlider fuel s
      = (callsTrace fuel (redrawSlider_calls s).2).map
          (fun t => ((redrawSlider_calls s).1, t)) := by
  unfold redrawSlider redrawSlider_calls
  by_cases hfast : s.drawn = true ∧ s.position_x = s.last_position_x
      ∧ s.position_y = s.last_position_y
  · rw [if_pos hfast, if_pos hfast]
    rfl
  · rw [if_neg hfast, if_neg hfast]
    by_cases hd : s.drawn = true
    · simp only [if_pos hd, List.singleton_append, callsTrace]
      cases screen_drawRectangle fuel s.last_position_x s.last_position_y
          SPRITE_SLIDER_WIDTH SPRITE_SLIDER_HEIGHT SCREEN_BACKGROUND with
      | none => rfl
      | some erase =>
        cases screen_drawRectangle fuel s.position_x s.position_y
            SPRITE_SLIDER_WIDTH SPRITE_SLIDER_HEIGHT SPRITE_SLIDER_COLOUR with
        | none => rfl
        | some draw => simp
    · simp only [if_neg hd, List.nil_append, callsTrace]
      cases screen_drawRectangle fuel s.position_x s.position_y
          SPRITE_SLIDER_WIDTH SPRITE_SLIDER_HEIGHT SPRITE_SLIDER_COLOUR with
      | none => rfl
      | some draw => simp

theorem moveSlider_calls_same (s : SliderSprite) (hd : s.drawn = true) :
    moveSlider_calls s s.position_x s.position_y
      = ({ position_x := s.position_x, position_y := s.position_y,
           last_position_x := s.position_x, last_position_y := s.position_y,
           drawn := true }, []) := by
  unfold moveSlider_calls redrawSlider_calls
  rw [if_pos ⟨hd, rfl, rfl⟩, hd]

theorem moveSlider_calls_moved (s : SliderSprite) (x y : Nat) (hd : s.drawn = true)
    (hne : ¬ (x = s.position_x ∧ y = s.position_y)) :
    moveSlider_calls s x y
      = ({ position_x := x, position_y := y,
           last_position_x := s.position_x, last_position_y := s.position_y,
           drawn := true },
         [⟨s.position_x, s.position_y, 24, 5, SCREEN_BACKGROUND⟩,
          ⟨x, y, 24, 5, SPRITE_SLIDER_COLOUR⟩]) := by
  unfold moveSlider_calls redrawSlider_calls
  rw [if_neg (fun h => hne h.2), if_pos hd]
  rfl

theorem createSliderSprite_calls_eq (fresh : SliderSprite) (x y : Nat) :
    createSliderSprite_calls fresh x y
      = ({ position_x := x, position_y := y, last_position_x := x, last_position_y := y,
           drawn := true },
         [⟨x, y, 24, 5, SPRITE_SLIDER_COLOUR⟩]) := by
  unfold createSliderSprite_calls moveSlider_calls redrawSlider_calls
  rw [if_neg (fun h => Bool.noConfusion h.1), if_neg (fun h => Bool.noConfusion h)]
  rfl

theorem fill_inBounds (scr : Screen) (x y w h colour px py : Nat)
    (hx : x + w ≤ 130) (hy : y + h ≤ 162) :
    (scr.fill ⟨x, y, w, h, colour⟩) px py
      = if inRect x y w h px py = true then colour else scr px py := by
  unfold Screen.fill
  rw [if_pos ⟨hx, hy⟩]

theorem moveSlider_step_screen (s : SliderSprite) (scr : Screen) (x y : Nat)
    (hd : s.drawn = true)
    (hsx : s.position_x + 24 ≤ 130) (hsy : s.position_y + 5 ≤ 162)
    (hscr : ∀ px py, scr px py
      = if inRect s.position_x s.position_y 24 5 px py = true
        then SPRITE_SLIDER_COLOUR else SCREEN_BACKGROUND)
    (hx : x + 24 ≤ 130) (hy : y + 5 ≤ 162) :
    (moveSlider_calls s x y).1
        = { position_x := x, position_y := y, last_position_x := s.position_x,
            last_position_y := s.position_y, drawn := true }
      ∧ ∀ px py, (scr.fills (moveSlider_calls s x y).2) px py
          = if inRect x y 24 5 px py = true
            then SPRITE_SLIDER_COLOUR else SCREEN_BACKGROUND := by
  by_cases hsame : x = s.position_x ∧ y = s.position_y
  · obtain ⟨rfl, rfl⟩ := hsame
    rw [moveSlider_calls_same s hd]
    exact ⟨rfl, hscr⟩
  · rw [moveSlider_calls_moved s x y hd hsame]
    refine ⟨rfl, ?_⟩
    intro px py
    show ((scr.fill ⟨s.position_x, s.position_y, 24, 5, SCREEN_BACKGROUND⟩).fill
      ⟨x, y, 24, 5, SPRITE_SLIDER_COLOUR⟩) px py = _
    rw [fill_inBounds _ x y 24 5 _ px py hx hy,
      fill_inBounds _ s.position_x s.position_y 24 5 _ px py hsx hsy, hscr]
    split_ifs <;> rfl

theorem createSliderSprite_screen (fresh : SliderSprite) (x y : Nat)
    (hx : x + 24 ≤ 130) (hy : y + 5 ≤ 162) :
    (createSliderSprite_calls fresh x y).1
        = { position_x := x, position_y := y, last_position_x := x,
            last_position_y := y, drawn := true }
      ∧ ∀ px py, (Screen.blank.fills (createSliderSprite_calls fresh x y).2) px py
          = if inRect x y 24 5 px py = true
            then SPRITE_SLIDER_COLOUR else SCREEN_BACKGROUND := by
  rw [createSliderSprite_calls_eq]
  refine ⟨rfl, ?_⟩
  intro px py
  show (Screen.blank.fill ⟨x, y, 24, 5, SPRITE_SLIDER_COLOUR⟩) px py = _
  rw [fill_inBounds _ x y 24 5 _ px py hx hy]
  rfl

theorem foldl_moves_screen (moves : List (Nat × Nat)) :
    ∀ (s : SliderSprite) (scr : Screen), s.drawn = true →
      s.position_x + 24 ≤ 130 → s.position_y + 5 ≤ 162 →
      (∀ px py, scr px py
        = if inRect s.position_x s.position_y 24 5 px py = true
          then SPRITE_SLIDER_COLOUR else SCREEN_BACKGROUND) →
      (∀ m ∈ moves, m.1 + 24 ≤ 130 ∧ m.2 + 5 ≤ 162) →
      ∀ r, r = moves.foldl
          (fun (st : SliderSprite × Screen) (m : Nat × Nat) =>
            ((moveSlider_calls st.1 m.1 m.2).1,
              st.2.fills (moveSlider_calls st.1 m.1 m.2).2))
          (s, scr) →
        r.1.drawn = true
          ∧ r.1.position_x + 24 ≤ 130 ∧ r.1.position_y + 5 ≤ 162
          ∧ ∀ px py, r.2 px py
              = if inRect r.1.position_x r.1.position_y 24 5 px py = true
                then SPRITE_SLIDER_COLOUR else SCREEN_BACKGROUND := by
  induction moves with
  | nil =>
    intro s scr hd hsx hsy hscr _ r hr
    subst hr
    exact ⟨hd, hsx, hsy, hscr⟩
  | cons m rest ih =>
    intro s scr hd hsx hsy hscr hm r hr
    have hin := hm m (List.mem_cons_self _ _)
    have hstep := moveSlider_step_screen s scr m.1 m.2 hd hsx hsy hscr hin.1 hin.2
    rw [List.foldl_cons] at hr
    refine ih (moveSlider_calls s m.1 m.2).1 (scr.fills (moveSlider_calls s m.1 m.2).2)
      ?_ ?_ ?_ ?_ (fun m' hm' => hm m' (List.mem_cons_of_mem _ hm')) r hr
    · rw [hstep.1]
    · rw [hstep.1]; exact hin.1
    · rw [hstep.1]; exact hin.2
    · rw [hstep.1]; exact hstep.2

theorem spriteRun_screen (fresh : SliderSprite) (x0 y0 : Nat) (moves : List (Nat × Nat))
    (hx : x0 + 24 ≤ 130) (hy : y0 + 5 ≤ 162)
    (hm : ∀ m ∈ moves, m.1 + 24 ≤ 130 ∧ m.2 + 5 ≤ 162) :
    (spriteRun fresh x0 y0 moves).1.drawn = true
      ∧ ∀ px py, (spriteRun fresh x0 y0 moves).2 px py
          = if inRect (spriteRun fresh x0 y0 moves).1.position_x
                (spriteRun fresh x0 y0 moves).1.position_y 24 5 px py = true
            then SPRITE_SLIDER_COLOUR else SCREEN_BACKGROUND := by
  have hc := createSliderSprite_screen fresh x0 y0 hx hy
  have h := foldl_moves_screen moves (createSliderSprite_calls fresh x0 y0).1
    (Screen.blank.fills (createSliderSprite_calls fresh x0 y0).2)
    (by rw [hc.1]) (by rw [hc.1]; exact hx) (by rw [hc.1]; exact hy)
    (by rw [hc.1]; exact hc.2) hm (spriteRun fresh x0 y0 moves) rfl
  exact ⟨h.1, h.2.2.2⟩

/-! ## Lemmas on termination and on `main` -/

theorem drawRectangle_isSome (fuel x y w h colour : Nat) (hfuel : 256 ≤ fuel)
    (hw : w < 256) (hh : h < 256) :
    ∃ t, screen_drawRectangle fuel x y w h colour = some t := by
  unfold screen_drawRectangle
  by_cases h1 : (x : Int) + w > SCREEN_WIDTH ∨ (y : Int) + h > SCREEN_HEIGHT
  · rw [if_pos h1]; exact ⟨[], rfl⟩
  · have h2 : ¬ ((x : Int) + w < 0 ∨ (y : Int) + h < 0) := by omega
    rw [if_neg h1, if_neg h2]
    simp only []
    rw [loopY_eq _ _ w h fuel hw hh (by omega) fuel 0 (Nat.zero_le _) (by omega)]
    exact ⟨_, rfl⟩

theorem moveSlider_result (fuel : Nat) (s : SliderSprite) (x y : Nat) (hfuel : 256 ≤ fuel) :
    ∃ t, moveSlider fuel s x y
      = some ({ position_x := x, position_y := y, last_position_x := s.position_x,
                last_position_y := s.position_y, drawn := true }, t) := by
  obtain ⟨t2, h2⟩ := drawRectangle_isSome fuel x y SPRITE_SLIDER_WIDTH SPRITE_SLIDER_HEIGHT
    SPRITE_SLIDER_COLOUR hfuel (by decide) (by decide)
  obtain ⟨t1, h1⟩ := drawRectangle_isSome fuel s.position_x s.position_y
    SPRITE_SLIDER_WIDTH SPRITE_SLIDER_HEIGHT SCREEN_BACKGROUND hfuel (by decide) (by decide)
  unfold moveSlider redrawSlider
  by_cases hfast : s.drawn = true ∧ x = s.position_x ∧ y = s.position_y
  · rw [if_pos hfast, hfast.1]
    exact ⟨[], rfl⟩
  · rw [if_neg hfast]
    by_cases hd : s.drawn = true
    · rw [if_pos hd]
      simp only [h1, h2]
      exact ⟨_, rfl⟩
    · rw [if_neg hd]
      simp only [h2]
      exact ⟨_, rfl⟩

theorem moveSlider_again (fuel : Nat) (x y lx ly : Nat) :
    moveSlider fuel { position_x := x, position_y := y, last_position_x := lx,
                      last_position_y := ly, drawn := true } x y
      = some ({ position_x := x, position_y := y, last_position_x := x,
                last_position_y := y, drawn := true }, []) := by
  unfold moveSlider redrawSlider
  rw [if_pos ⟨rfl, rfl, rfl⟩]

theorem length_rectFill (d x y w h colour : Nat) :
    (rectFill d x y w h colour).length = 24 + 2 * (w * h) := by
  unfold rectFill windowSet transaction pixelStream
  simp only [List.length_append, List.length_cons, List.length_nil, List.length_map,
    length_pixels]
  omega

theorem screen_initialise_isSome (fuel : Nat) (hfuel : 256 ≤ fuel) :
    ∃ r, screen_initialise fuel = some r := by
  obtain ⟨t, ht⟩ := drawRectangle_isSome fuel 0 0 SCREEN_WIDTH SCREEN_HEIGHT
    SCREEN_BACKGROUND hfuel (by decide) (by decide)
  unfold screen_initialise screen_setScreenColour
  rw [ht]
  exact ⟨_, rfl⟩

theorem map_pair_eq_some {α β γ : Type} (o : Option (α × β)) (f : β → γ) (a : α) (c : γ)
    (h : o.map (fun r => (r.1, f r.2)) = some (a, c)) :
    ∃ b, o = some (a, b) ∧ f b = c := by
  cases o with
  | none => simp at h
  | some r =>
    obtain ⟨r1, r2⟩ := r
    simp only [Option.map_some', Option.some.injEq, Prod.mk.injEq] at h
    exact ⟨r2, by rw [h.1], h.2⟩

/-- The three steps of `main` on the samples 250, 500, 774. -/
theorem main_three_samples (fuel : Nat) (fresh : SliderSprite) (hfuel : 256 ≤ fuel) :
    (main fuel fresh [250, 500, 774]).map
        (fun r => r.2.map (fun st => (st.1, busTrace st.2)))
      = some [
          ({ position_x := 0, position_y := 20, last_position_x := 0,
             last_position_y := 20, drawn := true },
            rectFill 11 0 20 24 5 SPRITE_SLIDER_COLOUR),
          ({ position_x := 51, position_y := 20, last_position_x := 0,
             last_position_y := 20, drawn := true },
            rectFill 11 0 20 24 5 SCREEN_BACKGROUND
              ++ rectFill 11 51 20 24 5 SPRITE_SLIDER_COLOUR),
          ({ position_x := 106, position_y := 20, last_position_x := 51,
             last_position_y := 20, drawn := true },
            rectFill 11 51 20 24 5 SCREEN_BACKGROUND
              ++ rectFill 11 106 20 24 5 SPRITE_SLIDER_COLOUR)] := by
  obtain ⟨init, hinit⟩ := screen_initialise_isSome fuel hfuel
  have m1 : mapValue 250 = 0 := by rw [mapValue_mid 250 (by decide) (by decide)]
  have m2 : mapValue 500 = 51 := by rw [mapValue_mid 500 (by decide) (by decide)]
  have m3 : mapValue 774 = 106 := mapValue_of_gt 774 (by decide)
  obtain ⟨t0, h0, b0⟩ := map_pair_eq_some (createSliderSprite fuel fresh 0 20) busTrace _ _
    (redrawSlider_first fuel ⟨0, 20, 0, 20, false⟩ hfuel rfl (by decide) (by decide))
  obtain ⟨t1, h1, b1⟩ := map_pair_eq_some (moveSlider fuel ⟨0, 20, 0, 20, true⟩ 51 20)
    busTrace _ _
    (redrawSlider_moved fuel ⟨51, 20, 0, 20, true⟩ hfuel rfl (by decide) (by decide)
      (by decide) (by decide) (by decide))
  obtain ⟨t2, h2, b2⟩ := map_pair_eq_some (moveSlider fuel ⟨51, 20, 0, 20, true⟩ 106 20)
    busTrace _ _
    (redrawSlider_moved fuel ⟨106, 20, 51, 20, true⟩ hfuel rfl (by decide) (by decide)
      (by decide) (by decide) (by decide))
  unfold main
  rw [hinit]
  simp only [m1, m2, m3, main_loop, h0, h1, h2, Option.map_some', List.map_cons, List.map_nil,
    b0, b1, b2]
  rfl

/-! ## The claims on the screen model and on `main` -/

/-- C13, as stated, fails: after `createSliderSprite(0, 20)` and `moveSlider(51, 20)`
the sprite has drawn = true and last_position = (0, 20), and the screen does not show
the sprite colour exactly on the footprint at last_position (it shows it at (51, 20));
after `createSliderSprite(0, 20)` and `moveSlider(120, 20)`, whose footprint leaves the
screen, drawn = true and the sprite colour is shown neither exactly on the footprint at
last_position nor on the one at position. -/
theorem C13_counterexample :
    (spriteRun ⟨0, 0, 0, 0, false⟩ 0 20 [(51, 20)]).1
        = { position_x := 51, position_y := 20, last_position_x := 0,
            last_position_y := 20, drawn := true }
      ∧ ¬ showsSpriteExactlyAt (spriteRun ⟨0, 0, 0, 0, false⟩ 0 20 [(51, 20)]).2 0 20
      ∧ (spriteRun ⟨0, 0, 0, 0, false⟩ 0 20 [(120, 20)]).1
        = { position_x := 120, position_y := 20, last_position_x := 0,
            last_position_y := 20, drawn := true }
      ∧ ¬ showsSpriteExactlyAt (spriteRun ⟨0, 0, 0, 0, false⟩ 0 20 [(120, 20)]).2 0 20
      ∧ ¬ showsSpriteExactlyAt (spriteRun ⟨0, 0, 0, 0, false⟩ 0 20 [(120, 20)]).2 120 20 := by
  refine ⟨by decide, ?_, by decide, ?_, ?_⟩
  · intro h
    exact absurd ((h 0 20).mpr (by decide)) (by decide)
  · intro h
    exact absurd ((h 0 20).mpr (by decide)) (by decide)
  · intro h
    exact absurd ((h 120 20).mpr (by decide)) (by decide)

/-- C13, amended: in every state reached by `createSliderSprite` followed by `moveSlider`
calls whose 24x5 footprints all lie inside the screen, drawn is true and the screen
shows the sprite colour on the footprint at position, and on no pixel outside it. -/
theorem C13_sprite_shown_at_position (fresh : SliderSprite) (x0 y0 : Nat)
    (moves : List (Nat × Nat))
    (hx : x0 + SPRITE_SLIDER_WIDTH ≤ SCREEN_WIDTH) (hy : y0 + SPRITE_SLIDER_HEIGHT ≤ SCREEN_HEIGHT)
    (hm : ∀ m ∈ moves, m.1 + SPRITE_SLIDER_WIDTH ≤ SCREEN_WIDTH
      ∧ m.2 + SPRITE_SLIDER_HEIGHT ≤ SCREEN_HEIGHT) :
    (spriteRun fresh x0 y0 moves).1.drawn = true
      ∧ showsSpriteExactlyAt (spriteRun fresh x0 y0 moves).2
          (spriteRun fresh x0 y0 moves).1.position_x
          (spriteRun fresh x0 y0 moves).1.position_y := by
  have h := spriteRun_screen fresh x0 y0 moves hx hy hm
  refine ⟨h.1, ?_⟩
  intro px py
  rw [h.2 px py]
  simp only [SPRITE_SLIDER_WIDTH, SPRITE_SLIDER_HEIGHT]
  split_ifs with hi
  · exact ⟨fun _ => hi, fun _ => rfl⟩
  · exact ⟨fun hc => absurd hc (by decide), fun hc => absurd hc hi⟩

/-- C13, amended, at the sprite created at (0, 20) and moved to (51, 20), then (60, 20). -/
theorem C13_witness :
    (spriteRun ⟨0, 0, 0, 0, false⟩ 0 20 [(51, 20), (60, 20)]).1.drawn = true
      ∧ showsSpriteExactlyAt (spriteRun ⟨0, 0, 0, 0, false⟩ 0 20 [(51, 20), (60, 20)]).2
          (spriteRun ⟨0, 0, 0, 0, false⟩ 0 20 [(51, 20), (60, 20)]).1.position_x
          (spriteRun ⟨0, 0, 0, 0, false⟩ 0 20 [(51, 20), (60, 20)]).1.position_y :=
  C13_sprite_shown_at_position ⟨0, 0, 0, 0, false⟩ 0 20 [(51, 20), (60, 20)]
    (by decide) (by decide) (by decide)

/-- C14, as stated, fails at its first step: in `main` on the samples 250, 500, 774
the first step, `createSliderSprite`, puts on the bus one draw-rectangle at (0, 20),
which is not an erase-rectangle followed by that draw-rectangle, whatever the place of
the erase. -/
theorem C14_counterexample :
    (main 256 ⟨0, 0, 0, 0, false⟩ [250, 500, 774]).map
        (fun r => (r.2.map (fun st => busTrace st.2)).head?)
      = some (some (rectFill 11 0 20 24 5 SPRITE_SLIDER_COLOUR))
      ∧ ∀ ex ey : Nat, rectFill 11 0 20 24 5 SPRITE_SLIDER_COLOUR
          ≠ rectFill 11 ex ey 24 5 SCREEN_BACKGROUND
              ++ rectFill 11 0 20 24 5 SPRITE_SLIDER_COLOUR := by
  constructor
  · have h := main_three_samples 256 ⟨0, 0, 0, 0, false⟩ (by decide)
    cases hm : main 256 ⟨0, 0, 0, 0, false⟩ [250, 500, 774] with
    | none => rw [hm] at h; simp at h
    | some r =>
      rw [hm] at h
      simp only [Option.map_some', Option.some.injEq] at h
      have h' := congrArg (fun l => (l.map Prod.snd).head?) h
      simp only [List.map_map, List.map_cons, List.head?_cons] at h'
      simp only [Option.map_some', Option.some.injEq]
      rw [← h']
      congr 1
  · intro ex ey h
    have hl := congrArg List.length h
    rw [List.length_append, length_rectFill, length_rectFill] at hl
    omega

/-- C14, amended: in `main` on the samples 250, 500, 774 the sprite x-positions are 0,
51, 106 (r = 500 maps to 51) at y = 20; the first step, `createSliderSprite`, puts on
the bus one draw-rectangle and no erase, and each of the two following steps,
`moveSlider`, the erase-rectangle at the old place then the draw-rectangle at the new. -/
theorem C14_main_three_samples (fuel : Nat) (fresh : SliderSprite) (hfuel : 256 ≤ fuel) :
    mapValue 250 = 0 ∧ mapValue 500 = 51 ∧ mapValue 774 = 106
      ∧ (main fuel fresh [250, 500, 774]).map
          (fun r => r.2.map (fun st => (st.1, busTrace st.2)))
        = some [
            ({ position_x := 0, position_y := 20, last_position_x := 0,
               last_position_y := 20, drawn := true },
              rectFill 11 0 20 24 5 SPRITE_SLIDER_COLOUR),
            ({ position_x := 51, position_y := 20, last_position_x := 0,
               last_position_y := 20, drawn := true },
              rectFill 11 0 20 24 5 SCREEN_BACKGROUND
                ++ rectFill 11 51 20 24 5 SPRITE_SLIDER_COLOUR),
            ({ position_x := 106, position_y := 20, last_position_x := 51,
               last_position_y := 20, drawn := true },
              rectFill 11 51 20 24 5 SCREEN_BACKGROUND
                ++ rectFill 11 106 20 24 5 SPRITE_SLIDER_COLOUR)] :=
  ⟨by rw [mapValue_mid 250 (by decide) (by decide)],
   by rw [mapValue_mid 500 (by decide) (by decide)],
   mapValue_of_gt 774 (by decide),
   main_three_samples fuel fresh hfuel⟩

/-- C14, amended, with fuel 256 and a fresh record that holds other values. -/
theorem C14_witness :
    (main 256 ⟨7, 9, 200, 250, true⟩ [250, 500, 774]).map
        (fun r => r.2.map (fun st => (st.1, busTrace st.2)))
      = some [
          ({ position_x := 0, position_y := 20, last_position_x := 0,
             last_position_y := 20, drawn := true },
            rectFill 11 0 20 24 5 SPRITE_SLIDER_COLOUR),
          ({ position_x := 51, position_y := 20, last_position_x := 0,
             last_position_y := 20, drawn := true },
            rectFill 11 0 20 24 5 SCREEN_BACKGROUND
              ++ rectFill 11 51 20 24 5 SPRITE_SLIDER_COLOUR),
          ({ position_x := 106, position_y := 20, last_position_x := 51,
             last_position_y := 20, drawn := true },
            rectFill 11 51 20 24 5 SCREEN_BACKGROUND
              ++ rectFill 11 106 20 24 5 SPRITE_SLIDER_COLOUR)] :=
  (C14_main_three_samples 256 ⟨7, 9, 200, 250, true⟩ (by decide)).2.2.2

/-- C16, as stated, fails: the sprite created at (0, 20) and moved to (51, 20) is in the
state (position (51, 20), last_position (0, 20), drawn); `redrawSlider` invoked on that
state leaves the state as it is and puts the erase-rectangle and the draw-rectangle on
the bus, so a second invocation, on the same state, puts the same non-empty trace on the
bus again. -/
theorem C16_counterexample :
    (createSliderSprite 256 ⟨0, 0, 0, 0, false⟩ 0 20).map (fun r => r.1)
        = some { position_x := 0, position_y := 20, last_position_x := 0,
                 last_position_y := 20, drawn := true }
      ∧ (moveSlider 256 ⟨0, 20, 0, 20, true⟩ 51 20).map (fun r => r.1)
        = some { position_x := 51, position_y := 20, last_position_x := 0,
                 last_position_y := 20, drawn := true }
      ∧ (redrawSlider 256 ⟨51, 20, 0, 20, true⟩).map (fun r => (r.1, busTrace r.2))
        = some ({ position_x := 51, position_y := 20, last_position_x := 0,
                  last_position_y := 20, drawn := true },
            rectFill 11 0 20 24 5 SCREEN_BACKGROUND
              ++ rectFill 11 51 20 24 5 SPRITE_SLIDER_COLOUR)
      ∧ rectFill 11 0 20 24 5 SCREEN_BACKGROUND
          ++ rectFill 11 51 20 24 5 SPRITE_SLIDER_COLOUR ≠ [] := by
  refine ⟨?_, ?_, ?_, ?_⟩
  · obtain ⟨t, ht⟩ := moveSlider_result 256 ⟨0, 20, 0, 0, false⟩ 0 20 (by decide)
    unfold createSliderSprite
    rw [ht]
    rfl
  · obtain ⟨t, ht⟩ := moveSlider_result 256 ⟨0, 20, 0, 20, true⟩ 51 20 (by decide)
    rw [ht]
    rfl
  · exact redrawSlider_moved 256 ⟨51, 20, 0, 20, true⟩ (by decide) rfl (by decide)
      (by decide) (by decide) (by decide) (by decide)
  · intro h
    have hl := congrArg List.length h
    rw [List.length_append, length_rectFill, length_rectFill] at hl
    simp at hl

/-- C16, amended: from every sprite state, when `moveSlider` is invoked twice in
succession with the same target position, the first invocation returns the sprite at
the target, drawn, and the second (the `redrawSlider` it invokes finds position equal
to last_position) performs no event at all. -/
theorem C16_second_move_silent (fuel : Nat) (s : SliderSprite) (x y : Nat)
    (hfuel : 256 ≤ fuel) :
    ∃ t, moveSlider fuel s x y
        = some ({ position_x := x, position_y := y, last_position_x := s.position_x,
                  last_position_y := s.position_y, drawn := true }, t)
      ∧ moveSlider fuel { position_x := x, position_y := y,
                          last_position_x := s.position_x,
                          last_position_y := s.position_y, drawn := true } x y
        = some ({ position_x := x, position_y := y, last_position_x := x,
                  last_position_y := y, drawn := true }, []) := by
  obtain ⟨t, ht⟩ := moveSlider_result fuel s x y hfuel
  exact ⟨t, ht, moveSlider_again fuel x y s.position_x s.position_y⟩

/-- C16, amended, at the sprite created at (0, 20) and moved twice to (51, 20). -/
theorem C16_witness :
    ∃ t, moveSlider 256 ⟨0, 20, 0, 20, true⟩ 51 20
        = some ({ position_x := 51, position_y := 20, last_position_x := 0,
                  last_position_y := 20, drawn := true }, t)
      ∧ moveSlider 256 { position_x := 51, position_y := 20, last_position_x := 0,
                         last_position_y := 20, drawn := true } 51 20
        = some ({ position_x := 51, position_y := 20, last_position_x := 51,
                  last_position_y := 20, drawn := true }, []) :=
  C16_second_move_silent 256 ⟨0, 20, 0, 20, true⟩ 51 20 (by decide)

/-- C17: on a screen that starts all background, after `createSliderSprite(x0, y0)` and
any sequence of `moveSlider` calls whose 24x5 footprints all lie inside the screen,
overlapping or not, the sprite-coloured pixels are exactly those of the footprint at the
sprite's position and every other pixel is background; the events of each operation
are the events of the calls of `screen_drawRectangle` that the screen model applies. -/
theorem C17_screen_is_footprint_on_background (fresh : SliderSprite) (x0 y0 : Nat)
    (moves : List (Nat × Nat))
    (hx : x0 + 24 ≤ 130) (hy : y0 + 5 ≤ 162)
    (hm : ∀ m ∈ moves, m.1 + 24 ≤ 130 ∧ m.2 + 5 ≤ 162) :
    (∀ px py,
        ((spriteRun fresh x0 y0 moves).2 px py = SPRITE_SLIDER_COLOUR
          ↔ inRect (spriteRun fresh x0 y0 moves).1.position_x
              (spriteRun fresh x0 y0 moves).1.position_y 24 5 px py = true)
        ∧ (inRect (spriteRun fresh x0 y0 moves).1.position_x
              (spriteRun fresh x0 y0 moves).1.position_y 24 5 px py = false
            → (spriteRun fresh x0 y0 moves).2 px py = SCREEN_BACKGROUND))
      ∧ (∀ fuel s x y, moveSlider fuel s x y
          = (callsTrace fuel (moveSlider_calls s x y).2).map
              (fun t => ((moveSlider_calls s x y).1, t)))
      ∧ (∀ fuel other x y, createSliderSprite fuel other x y
          = (callsTrace fuel (createSliderSprite_calls other x y).2).map
              (fun t => ((createSliderSprite_calls other x y).1, t))) := by
  have h := spriteRun_screen fresh x0 y0 moves hx hy hm
  refine ⟨?_, ?_, ?_⟩
  · intro px py
    rw [h.2 px py]
    split_ifs with hi
    · exact ⟨⟨fun _ => hi, fun _ => rfl⟩, fun hc => absurd hi (by rw [hc]; decide)⟩
    · exact ⟨⟨fun hc => absurd hc (by decide), fun hc => absurd hc hi⟩, fun _ => rfl⟩
  · intro fuel s x y
    unfold moveSlider moveSlider_calls
    exact redrawSlider_eq_calls fuel _
  · intro fuel other x y
    unfold createSliderSprite createSliderSprite_calls moveSlider moveSlider_calls
    exact redrawSlider_eq_calls fuel _

/-- C17 at the sprite created at (0, 20), moved to the overlapping (10, 20), then to
the overlapping (10, 22), then to (106, 157), the far corner. -/
theorem C17_witness :
    (∀ px py,
        ((spriteRun ⟨0, 0, 0, 0, false⟩ 0 20 [(10, 20), (10, 22), (106, 157)]).2 px py
            = SPRITE_SLIDER_COLOUR
          ↔ inRect (spriteRun ⟨0, 0, 0, 0, false⟩ 0 20 [(10, 20), (10, 22), (106, 157)]).1.position_x
              (spriteRun ⟨0, 0, 0, 0, false⟩ 0 20 [(10, 20), (10, 22), (106, 157)]).1.position_y
              24 5 px py = true)
        ∧ (inRect (spriteRun ⟨0, 0, 0, 0, false⟩ 0 20 [(10, 20), (10, 22), (106, 157)]).1.position_x
              (spriteRun ⟨0, 0, 0, 0, false⟩ 0 20 [(10, 20), (10, 22), (106, 157)]).1.position_y
              24 5 px py = false
            → (spriteRun ⟨0, 0, 0, 0, false⟩ 0 20 [(10, 20), (10, 22), (106, 157)]).2 px py
                = SCREEN_BACKGROUND))
      ∧ (∀ fuel s x y, moveSlider fuel s x y
          = (callsTrace fuel (moveSlider_calls s x y).2).map
              (fun t => ((moveSlider_calls s x y).1, t)))
      ∧ (∀ fuel other x y, createSliderSprite fuel other x y
          = (callsTrace fuel (createSliderSprite_calls other x y).2).map
              (fun t => ((createSliderSprite_calls other x y).1, t))) :=
  C17_screen_is_footprint_on_background ⟨0, 0, 0, 0, false⟩ 0 20
    [(10, 20), (10, 22), (106, 157)] (by decide) (by decide) (by decide)

end Slider
